import Mathlib

/-!
Verification of the chart-utility core of the `nicegui_scaffold` repository:
`src/utils/plotly_dataframe.py`, `src/utils/plotly_theme.py` and
`src/utils/plotly_events.py`, shallowly embedded in Lean.

Python values that flow through these functions are modelled by the
JSON-like type `PyVal`; Python dictionaries are modelled as insertion-ordered
association lists (`PyDict`), with `dictGet`/`dictSet` reproducing Python's
`d.get(k)` / `d[k] = v` semantics (first matching entry wins, assignment
replaces the entry in place or appends).
-/

set_option autoImplicit false

namespace NiceguiScaffold

/-! ## Definitions: shallow embedding of the source -/

/-- A Python value as it appears in the chart utilities: `None`, booleans,
integers, strings, lists and (string-keyed) dictionaries. -/
inductive PyVal where
  | none : PyVal
  | bool : Bool → PyVal
  | int : Int → PyVal
  | str : String → PyVal
  | list : List PyVal → PyVal
  | dict : List (String × PyVal) → PyVal

/-- A Python dictionary with string keys, as an insertion-ordered
association list. -/
abbrev PyDict := List (String × PyVal)

/-- `d.get(key)` / `key in d`: first entry whose key matches. -/
def dictGet : PyDict → String → Option PyVal
  | [], _ => Option.none
  | (k, v) :: rest, key => if k = key then some v else dictGet rest key

/-- `d[key] = val`: replace the value of the first entry with this key,
or append a new entry at the end (Python dicts preserve insertion order). -/
def dictSet : PyDict → String → PyVal → PyDict
  | [], key, val => [(key, val)]
  | (k, v) :: rest, key, val =>
      if k = key then (k, val) :: rest else (k, v) :: dictSet rest key val

/-- `value if value is not None`-style projection: `d.get(key, default)`. -/
def dictGetD (d : PyDict) (key : String) (default : PyVal) : PyVal :=
  (dictGet d key).getD default

/-- The keys of a dictionary, in order. -/
def dictKeys (d : PyDict) : List String := d.map Prod.fst

mutual

/-- `_deep_merge(base, override)` from `plotly_dataframe.py`:

    result = base.copy()
    for key, value in override.items():
        if key in result and isinstance(result[key], dict) and isinstance(value, dict):
            result[key] = _deep_merge(result[key], value)
        else:
            result[key] = value
    return result

The loop is unrolled into structural recursion over `override`; the per-entry
body is split into `deep_merge_step` so that the mutual recursion is
structurally decreasing. -/
def deep_merge (base : PyDict) : PyDict → PyDict
  | [] => base
  | (key, value) :: rest => deep_merge (deep_merge_step base key value) rest

/-- One iteration of the `_deep_merge` loop: the `result[key] = ...`
assignment for a single `(key, value)` item of `override`, applied to the
current accumulated `result`. -/
def deep_merge_step (result : PyDict) (key : String) : PyVal → PyDict
  | PyVal.dict od =>
      match dictGet result key with
      | some (PyVal.dict bd) => dictSet result key (PyVal.dict (deep_merge bd od))
      | _ => dictSet result key (PyVal.dict od)
  | value => dictSet result key value

end

/-- A pandas DataFrame as the figure builder observes it: named columns,
each an ordered list of values (`df.columns` / `df[col].tolist()`). -/
structure DataFrame where
  cols : List (String × List PyVal)

def DataFrame.columns (df : DataFrame) : List String := df.cols.map Prod.fst

/-- `df[col].tolist()` (callers only use it on validated columns). -/
def DataFrame.colValues (df : DataFrame) (c : String) : List PyVal :=
  (List.lookup c df.cols).getD []

/-- The `ValueError`s raised by `dataframe_to_plotly` / `_create_trace`,
one variant per distinct message. -/
inductive BuildError where
  | missingColumns (cols : List String)
  | lengthMismatch (got expected : Nat)
  | unsupportedKind (kind : String)

/-- The `y_columns: str | list[str]` union of `dataframe_to_plotly`. -/
inductive StrOrStrList where
  | str (s : String)
  | list (l : List String)

/-- The `if isinstance(y_columns, str): y_columns = [y_columns]`
normalisation at the top of `dataframe_to_plotly`. -/
def normalizeYColumns : StrOrStrList → List String
  | StrOrStrList.str s => [s]
  | StrOrStrList.list l => l

/-- `_create_trace` from `plotly_dataframe.py`. -/
def create_trace (x_values y_values : List PyVal) (name : String)
    (chart_type : String) (extra_options : Option PyDict) :
    Except BuildError PyDict := do
  let trace : PyDict :=
    [("x", PyVal.list x_values), ("y", PyVal.list y_values), ("name", PyVal.str name)]
  let trace ←
    if chart_type = "bar" then
      pure (dictSet trace "type" (PyVal.str "bar"))
    else if chart_type = "line" then
      pure (dictSet (dictSet (dictSet trace "type" (PyVal.str "scatter"))
        "mode" (PyVal.str "lines")) "line" (PyVal.dict [("width", PyVal.int 2)]))
    else if chart_type = "scatter" then
      pure (dictSet (dictSet (dictSet trace "type" (PyVal.str "scatter"))
        "mode" (PyVal.str "markers")) "marker" (PyVal.dict [("size", PyVal.int 10)]))
    else
      throw (BuildError.unsupportedKind chart_type)
  -- Merge extra options if provided (`if extra_options:` - None and {} falsy)
  match extra_options with
  | some eo => if eo.isEmpty then pure trace else pure (deep_merge trace eo)
  | Option.none => pure trace

/-- The `for y_col, name in zip(y_columns, trace_names):` loop of
`dataframe_to_plotly`, building one trace per pair. -/
def build_traces (x_values : List PyVal) (df : DataFrame) (chart_type : String)
    (trace_options : Option PyDict) :
    List (String × String) → Except BuildError (List PyDict)
  | [] => pure []
  | (y_col, name) :: rest => do
      let t ← create_trace x_values (df.colValues y_col) name chart_type trace_options
      let ts ← build_traces x_values df chart_type trace_options rest
      pure (t :: ts)

/-- The layout computation at the tail of `dataframe_to_plotly`
(default margins, conditional barmode, user layout merged on top),
split out as a helper of the embedding:

    default_layout = {"margin": {"l": 40, "r": 20, "t": 40, "b": 40}}
    if chart_type == "bar" and len(traces) > 1:
        default_layout["barmode"] = "group"
    if layout:
        default_layout = _deep_merge(default_layout, layout)
-/
def mergeLayoutDefaults (chart_type : String) (ntraces : Nat)
    (layout : Option PyDict) : PyDict :=
  let default_layout : PyDict :=
    [("margin", PyVal.dict
      [("l", PyVal.int 40), ("r", PyVal.int 20), ("t", PyVal.int 40), ("b", PyVal.int 40)])]
  let default_layout :=
    if chart_type = "bar" ∧ ntraces > 1 then
      dictSet default_layout "barmode" (PyVal.str "group")
    else default_layout
  match layout with
  | some l => if l.isEmpty then default_layout else deep_merge default_layout l
  | Option.none => default_layout

/-- `dataframe_to_plotly` from `plotly_dataframe.py`. -/
def dataframe_to_plotly (df : DataFrame) (x_column : String)
    (y_columns0 : StrOrStrList) (chart_type : String)
    (layout : Option PyDict) (trace_names0 : Option (List String))
    (trace_options : Option PyDict) : Except BuildError PyDict := do
  -- Normalize y_columns to a list
  let y_columns := normalizeYColumns y_columns0
  -- Validate columns exist
  let missing_cols := ([x_column] ++ y_columns).filter (fun c => decide (c ∉ df.columns))
  if ¬ missing_cols.isEmpty then
    throw (BuildError.missingColumns missing_cols)
  -- Set default trace names to column names
  let trace_names ← match trace_names0 with
    | Option.none => pure y_columns
    | some tn =>
        if tn.length ≠ y_columns.length then
          throw (BuildError.lengthMismatch tn.length y_columns.length)
        else pure tn
  -- Extract x values
  let x_values := df.colValues x_column
  -- Build traces
  let traces ← build_traces x_values df chart_type trace_options (y_columns.zip trace_names)
  -- Build layout with defaults, barmode for multiple bar traces, user layout merged on top
  pure [("data", PyVal.list (traces.map PyVal.dict)),
        ("layout", PyVal.dict (mergeLayoutDefaults chart_type traces.length layout))]

/-- The immutable colour configuration of `PlotlyTheme.__init__`. -/
structure PlotlyTheme where
  dark_page_color : String
  light_page_color : String
  primary_color : String
  secondary_color : String

/-- Python truthiness of a `PyVal` (`if value:`). -/
def pyTruthy : PyVal → Bool
  | PyVal.none => false
  | PyVal.bool b => b
  | PyVal.int n => n != 0
  | PyVal.str s => s != ""
  | PyVal.list l => !l.isEmpty
  | PyVal.dict d => !d.isEmpty

/-- `PlotlyTheme.is_dark_mode`: `app.storage.user.get("dark_mode", True)`.
The per-user storage mapping is the external state, passed explicitly and
re-read on every call. -/
def PlotlyTheme.is_dark_mode (storage : PyDict) : PyVal :=
  dictGetD storage "dark_mode" (PyVal.bool true)

/-- `PlotlyTheme.get_colors`. -/
def PlotlyTheme.get_colors (theme : PlotlyTheme) (storage : PyDict) :
    String × String × String :=
  let is_dark := pyTruthy (PlotlyTheme.is_dark_mode storage)
  let bg_color := if is_dark then theme.dark_page_color else theme.light_page_color
  let text_color := if is_dark then "white" else "black"
  let grid_color := if is_dark then "rgba(255, 255, 255, 0.1)" else "rgba(0, 0, 0, 0.1)"
  (bg_color, text_color, grid_color)

/-- Assignment `d[key][sub] = v` on a nested dictionary: raises
(`TypeError`/`KeyError`, modelled as `Option.none`) when `d[key]` is
missing or not a dictionary. -/
def setSubKey (d : PyDict) (key sub : String) (v : PyVal) : Option PyDict :=
  match dictGet d key with
  | some (PyVal.dict sd) => some (dictSet d key (PyVal.dict (dictSet sd sub v)))
  | _ => Option.none

/-- `if title is not None: layout["title"] = title`
(used twice in `apply_theme_to_figure`). -/
def titleSet (m : PyDict) : Option String → PyDict
  | some t => dictSet m "title" (PyVal.str t)
  | Option.none => m

/-- `if <axis>_title is not None: layout[<axis>]["title"] = <axis>_title`
(the two symmetric if-blocks building `theme_layout`). -/
def themeAxisTitleSet (m : PyDict) (axis : String) : Option String → Option PyDict
  | some t => setSubKey m axis "title" (PyVal.str t)
  | Option.none => some m

/-- The two symmetric post-merge if-blocks of `apply_theme_to_figure`:

    if <axis>_title is not None:
        if <axis> not in merged_layout:
            merged_layout[<axis>] = \x7b\x7d
        merged_layout[<axis>]["title"] = <axis>_title
-/
def mergedAxisTitleSet (m : PyDict) (axis : String) : Option String → Option PyDict
  | some t =>
      let m2 := if (dictGet m axis).isNone then dictSet m axis (PyVal.dict []) else m
      setSubKey m2 axis "title" (PyVal.str t)
  | Option.none => some m

/-- `existing_layout = figure.get("layout", {})` of `apply_theme_to_figure`:
absent layout defaults to an empty dictionary; a present non-dictionary
layout makes the subsequent `_deep_merge` iteration raise
(`Option.none`). -/
def existingLayout (figure : PyDict) : Option PyDict :=
  match dictGet figure "layout" with
  | some (PyVal.dict l) => some l
  | some _ => Option.none
  | Option.none => some ([] : PyDict)

/-- `apply_theme_to_figure` from `plotly_dataframe.py`. -/
def apply_theme_to_figure (figure : PyDict) (theme : PlotlyTheme) (storage : PyDict)
    (title xaxis_title yaxis_title : Option String) : Option PyDict := do
  -- Get theme colors
  let (bg_color, text_color, grid_color) := theme.get_colors storage
  -- Build theme layout
  let theme_layout : PyDict := [
    ("plot_bgcolor", PyVal.str bg_color),
    ("paper_bgcolor", PyVal.str bg_color),
    ("font", PyVal.dict [("color", PyVal.str text_color)]),
    ("xaxis", PyVal.dict [("gridcolor", PyVal.str grid_color),
      ("linecolor", PyVal.str text_color), ("zerolinecolor", PyVal.str grid_color)]),
    ("yaxis", PyVal.dict [("gridcolor", PyVal.str grid_color),
      ("linecolor", PyVal.str text_color), ("zerolinecolor", PyVal.str grid_color)])]
  -- Add optional titles
  let theme_layout := titleSet theme_layout title
  let theme_layout ← themeAxisTitleSet theme_layout "xaxis" xaxis_title
  let theme_layout ← themeAxisTitleSet theme_layout "yaxis" yaxis_title
  -- Merge theme layout with existing figure layout
  let existing_layout ← existingLayout figure
  let merged_layout := deep_merge theme_layout existing_layout
  -- If titles were provided, they should override existing
  let merged_layout := titleSet merged_layout title
  let merged_layout ← mergedAxisTitleSet merged_layout "xaxis" xaxis_title
  let merged_layout ← mergedAxisTitleSet merged_layout "yaxis" yaxis_title
  pure [("data", dictGetD figure "data" (PyVal.list [])),
        ("layout", PyVal.dict merged_layout)]

/-- The layout dictionary of a figure document (`fig["layout"]`). -/
def figLayout (fig : PyDict) : PyDict :=
  match dictGet fig "layout" with
  | some (PyVal.dict l) => l
  | _ => []

/-- The trace list of a figure document (`fig["data"]`). -/
def figTraces (fig : PyDict) : List PyVal :=
  match dictGet fig "data" with
  | some (PyVal.list l) => l
  | _ => []

/-- A field of a trace value (`trace[key]` when the trace is a dictionary). -/
def traceField (t : PyVal) (key : String) : Option PyVal :=
  match t with
  | PyVal.dict d => dictGet d key
  | _ => Option.none

/-- Nested lookup `d[key][sub]`. -/
def subGet (d : PyDict) (key sub : String) : Option PyVal :=
  match dictGet d key with
  | some (PyVal.dict sd) => dictGet sd sub
  | _ => Option.none

/-- `isinstance(v, dict)`. -/
def isDictVal : PyVal → Bool
  | PyVal.dict _ => true
  | _ => false

/-- `PlotlyPoint`: field values are kept as raw `PyVal`s, exactly as
`dict.get` hands them over (Python does not enforce the annotations). -/
structure PlotlyPoint where
  x : PyVal
  y : PyVal
  curve_number : PyVal
  point_number : PyVal
  z : PyVal
  lat : PyVal
  lon : PyVal
  text : PyVal
  customdata : PyVal
  point_numbers : PyVal

/-- `PlotlyPoint.from_dict`. The Python body calls `data.get(...)`, which
only dictionaries support; any other argument raises `AttributeError`
(modelled as `Option.none`). -/
def PlotlyPoint.from_dict : PyVal → Option PlotlyPoint
  | PyVal.dict d => some {
      x := dictGetD d "x" PyVal.none
      y := dictGetD d "y" PyVal.none
      curve_number := dictGetD d "curveNumber" (PyVal.int 0)
      point_number := dictGetD d "pointNumber" (PyVal.int 0)
      z := dictGetD d "z" PyVal.none
      lat := dictGetD d "lat" PyVal.none
      lon := dictGetD d "lon" PyVal.none
      text := dictGetD d "text" PyVal.none
      customdata := dictGetD d "customdata" PyVal.none
      point_numbers := dictGetD d "pointNumbers" PyVal.none }
  | _ => Option.none

/-- Python iteration (`for p in v`): lists yield their elements, strings
yield one-character strings, dictionaries yield their keys; every other
value raises `TypeError` (modelled as `Option.none`). -/
def pyIterate : PyVal → Option (List PyVal)
  | PyVal.list l => some l
  | PyVal.str s => some (s.data.map (fun c => PyVal.str (String.mk [c])))
  | PyVal.dict d => some (d.map (fun kv => PyVal.str kv.1))
  | _ => Option.none

/-- The comprehension `[PlotlyPoint.from_dict(p) for p in args["points"]]`. -/
def parsePoints (pv : PyVal) : Option (List PlotlyPoint) := do
  let items ← pyIterate pv
  items.mapM PlotlyPoint.from_dict

structure PlotlyClickEvent where
  points : List PlotlyPoint

structure PlotlyHoverEvent where
  points : List PlotlyPoint

structure PlotlySelectEvent where
  points : List PlotlyPoint
  range : PyVal
  lassoPoints : PyVal

def PlotlySelectEvent.point_count (e : PlotlySelectEvent) : Nat := e.points.length

def PlotlySelectEvent.is_empty (e : PlotlySelectEvent) : Bool := e.points.length == 0

def PlotlyClickEvent.x_values (e : PlotlyClickEvent) : List PyVal :=
  e.points.map PlotlyPoint.x

def PlotlyClickEvent.first_point (e : PlotlyClickEvent) : Option PlotlyPoint :=
  e.points.head?

/-- `PlotlyClickEvent.from_event_args`. `args` is `Optional[dict]`;
`if not args or "points" not in args` treats `None` and `{}` alike. -/
def PlotlyClickEvent.from_event_args (args : Option PyDict) : Option PlotlyClickEvent :=
  match args with
  | Option.none => some ⟨[]⟩
  | some a =>
      if a.isEmpty then some ⟨[]⟩
      else match dictGet a "points" with
        | Option.none => some ⟨[]⟩
        | some pv => (parsePoints pv).map (fun ps => ⟨ps⟩)

/-- `PlotlyHoverEvent.from_event_args` (same body as the click parser). -/
def PlotlyHoverEvent.from_event_args (args : Option PyDict) : Option PlotlyHoverEvent :=
  match args with
  | Option.none => some ⟨[]⟩
  | some a =>
      if a.isEmpty then some ⟨[]⟩
      else match dictGet a "points" with
        | Option.none => some ⟨[]⟩
        | some pv => (parsePoints pv).map (fun ps => ⟨ps⟩)

/-- `PlotlySelectEvent.from_event_args`. -/
def PlotlySelectEvent.from_event_args (args : Option PyDict) : Option PlotlySelectEvent :=
  match args with
  | Option.none => some ⟨[], PyVal.none, PyVal.none⟩
  | some a =>
      if a.isEmpty then some ⟨[], PyVal.none, PyVal.none⟩
      else do
        let points ← match dictGet a "points" with
          | some pv => parsePoints pv
          | Option.none => pure []
        pure ⟨points, dictGetD a "range" PyVal.none, dictGetD a "lassoPoints" PyVal.none⟩

/-- A Python value in the heap model: dictionaries live on the heap and
are referred to by address; everything else is an immutable leaf. -/
inductive HVal where
  | none : HVal
  | bool : Bool → HVal
  | int : Int → HVal
  | str : String → HVal
  | list : List HVal → HVal
  | ref : Nat → HVal

/-- A dictionary object: insertion-ordered entries. -/
abbrev HDict := List (String × HVal)

/-- The heap: dictionary objects indexed by address. -/
abbrev Heap := List HDict

def heapRead (h : Heap) (a : Nat) : Option HDict := h[a]?

def heapWrite (h : Heap) (a : Nat) (d : HDict) : Heap := h.set a d

/-- Allocate a fresh dictionary object, returning its address. -/
def heapAlloc (h : Heap) (d : HDict) : Heap × Nat := (h ++ [d], h.length)

def hdictGet : HDict → String → Option HVal
  | [], _ => Option.none
  | (k, v) :: rest, key => if k = key then some v else hdictGet rest key

def hdictSet : HDict → String → HVal → HDict
  | [], key, val => [(key, val)]
  | (k, v) :: rest, key, val =>
      if k = key then (k, val) :: rest else (k, v) :: hdictSet rest key val

/-- The test `key in result and isinstance(result[key], dict) and
isinstance(value, dict)`: in the heap model the dictionary values are
exactly the references, so the test succeeds iff both sides are
references, in which case it yields the two addresses. -/
def bothDictRefs : Option HVal → HVal → Option (Nat × Nat)
  | some (HVal.ref b), HVal.ref o => some (b, o)
  | _, _ => Option.none

/-- The `for key, value in override.items():` loop of `_deep_merge`,
writing into the `result` object; the recursive merge applied to nested
sub-dictionaries is passed in as `recMerge`. -/
def deep_merge_heap_loop (recMerge : Heap → Nat → Nat → Option (Heap × Nat)) :
    Heap → Nat → List (String × HVal) → Option Heap
  | h, _, [] => some h
  | h, result, (key, value) :: rest => do
      let cur ← heapRead h result
      match bothDictRefs (hdictGet cur key) value with
      | some (bsub, osub) => do
          let (h2, m) ← recMerge h bsub osub
          let cur2 ← heapRead h2 result
          deep_merge_heap_loop recMerge
            (heapWrite h2 result (hdictSet cur2 key (HVal.ref m))) result rest
      | Option.none =>
          deep_merge_heap_loop recMerge
            (heapWrite h result (hdictSet cur key value)) result rest

/-- `_deep_merge(base, override)` over the heap: `result = base.copy()`
allocates, the loop writes into the copy, and the result address is
returned. `Option.none` means fuel exhaustion or a dangling address,
neither of which occurs on well-formed inputs with enough fuel. -/
def deep_merge_heap : Nat → Heap → Nat → Nat → Option (Heap × Nat)
  | 0, _, _, _ => Option.none
  | fuel + 1, h, base, override => do
      let bd ← heapRead h base
      let od ← heapRead h override
      let (h1, result) := heapAlloc h bd
      let h2 ← deep_merge_heap_loop (deep_merge_heap fuel) h1 result od
      pure (h2, result)

/-- Shorthand for the `missing_cols` computation of `dataframe_to_plotly`. -/
def missingCols (df : DataFrame) (x_column : String) (ycs0 : StrOrStrList) : List String :=
  ([x_column] ++ normalizeYColumns ycs0).filter (fun c => decide (c ∉ df.columns))

/-- The example dataset of spec §8:
`[{month:"Jan",sales:10,revenue:20},{month:"Feb",sales:5,revenue:8}]`. -/
def exampleDf : DataFrame :=
  ⟨[("month", [PyVal.str "Jan", PyVal.str "Feb"]),
    ("sales", [PyVal.int 10, PyVal.int 5]),
    ("revenue", [PyVal.int 20, PyVal.int 8])]⟩

/-- A `PlotlyTheme` with the constructor's default colours. -/
def exampleTheme : PlotlyTheme :=
  ⟨"#121212", "white", "#22c55e", "#3b82f6"⟩

/-! ## Theorems -/

@[simp] theorem dictGet_nil (key : String) : dictGet [] key = Option.none := rfl

theorem dictGet_cons (k : String) (v : PyVal) (rest : PyDict) (key : String) :
    dictGet ((k, v) :: rest) key = if k = key then some v else dictGet rest key := rfl

@[simp] theorem dictGet_dictSet_self (d : PyDict) (key : String) (val : PyVal) :
    dictGet (dictSet d key val) key = some val := by
  induction d with
  | nil => simp [dictSet, dictGet]
  | cons hd tl ih =>
      obtain ⟨k, v⟩ := hd
      by_cases hk : k = key
      · simp [dictSet, dictGet, hk]
      · simp [dictSet, dictGet, hk, ih]

theorem dictGet_dictSet_ne (d : PyDict) (key key' : String) (val : PyVal)
    (h : key' ≠ key) : dictGet (dictSet d key val) key' = dictGet d key' := by
  induction d with
  | nil => simp [dictSet, dictGet, Ne.symm h]
  | cons hd tl ih =>
      obtain ⟨k, v⟩ := hd
      by_cases hk : k = key
      · subst hk
        simp [dictSet, dictGet, Ne.symm h]
      · simp only [dictSet, if_neg hk, dictGet_cons]
        by_cases hk2 : k = key'
        · simp [hk2]
        · simp [hk2, ih]

theorem dictGet_eq_none_iff (d : PyDict) (key : String) :
    dictGet d key = Option.none ↔ ∀ v, (key, v) ∉ d := by
  induction d with
  | nil => simp
  | cons hd tl ih =>
      obtain ⟨k, v⟩ := hd
      by_cases hk : k = key
      · subst hk
        simp only [dictGet_cons, if_pos rfl]
        constructor
        · intro hcontra
          exact (Option.some_ne_none v hcontra).elim
        · intro hall
          exact (hall v (List.mem_cons_self (k, v) tl)).elim
      · simp only [dictGet_cons, if_neg hk, ih, List.mem_cons]
        constructor
        · intro h w hw
          rcases hw with hw | hw
          · exact hk (congrArg Prod.fst hw).symm
          · exact h w hw
        · intro h w hw
          exact h w (Or.inr hw)

@[simp] theorem deep_merge_nil (base : PyDict) : deep_merge base [] = base := rfl

theorem deep_merge_cons (base : PyDict) (key : String) (value : PyVal) (rest : PyDict) :
    deep_merge base ((key, value) :: rest) =
      deep_merge (deep_merge_step base key value) rest := rfl

theorem dictGet_deep_merge_step_ne (result : PyDict) (key key' : String) (value : PyVal)
    (h : key' ≠ key) :
    dictGet (deep_merge_step result key value) key' = dictGet result key' := by
  cases value with
  | dict od =>
      unfold deep_merge_step
      cases hb : dictGet result key with
      | none => simpa using dictGet_dictSet_ne result key key' _ h
      | some w =>
          cases w <;> simp <;> exact dictGet_dictSet_ne result key key' _ h
  | none => exact dictGet_dictSet_ne result key key' _ h
  | bool b => exact dictGet_dictSet_ne result key key' _ h
  | int n => exact dictGet_dictSet_ne result key key' _ h
  | str s => exact dictGet_dictSet_ne result key key' _ h
  | list l => exact dictGet_dictSet_ne result key key' _ h

/-- Keys absent from `override` keep their `base` value (no uniqueness
assumption on keys is needed). -/
theorem dictGet_deep_merge_of_not_mem_override (base override : PyDict) (key : String)
    (h : dictGet override key = Option.none) :
    dictGet (deep_merge base override) key = dictGet base key := by
  induction override generalizing base with
  | nil => rfl
  | cons hd rest ih =>
      obtain ⟨k, v⟩ := hd
      rw [dictGet_cons] at h
      by_cases hk : k = key
      · simp [hk] at h
      · rw [if_neg hk] at h
        rw [deep_merge_cons, ih _ h, dictGet_deep_merge_step_ne]
        exact fun hh => hk hh.symm

theorem dictGet_not_mem_keys (d : PyDict) (key : String) (h : key ∉ dictKeys d) :
    dictGet d key = Option.none := by
  rw [dictGet_eq_none_iff]
  intro v hv
  exact h (List.mem_map.mpr ⟨(key, v), hv, rfl⟩)

theorem dictGet_deep_merge_step_self (base : PyDict) (key : String) (value : PyVal) :
    dictGet (deep_merge_step base key value) key =
      some (match dictGet base key, value with
            | some (PyVal.dict bd), PyVal.dict od => PyVal.dict (deep_merge bd od)
            | _, _ => value) := by
  cases hb : dictGet base key with
  | none => cases value <;> simp [deep_merge_step, hb]
  | some w => cases w <;> cases value <;> simp [deep_merge_step, hb]

/-- Full characterisation of a `_deep_merge` lookup, for overrides with
unique keys (Python dictionaries always have unique keys): a key is taken
from `override` if present there, recursively merged when both sides hold
dictionaries, and taken from `base` otherwise. -/
theorem dictGet_deep_merge (override : PyDict) (base : PyDict) (key : String)
    (hnd : (dictKeys override).Nodup) :
    dictGet (deep_merge base override) key =
      match dictGet override key with
      | Option.none => dictGet base key
      | some v =>
          some (match dictGet base key, v with
                | some (PyVal.dict bd), PyVal.dict od => PyVal.dict (deep_merge bd od)
                | _, _ => v) := by
  induction override generalizing base with
  | nil => rfl
  | cons hd rest ih =>
      obtain ⟨k, v⟩ := hd
      have hpair : (∀ x, (k, x) ∉ rest) ∧ (dictKeys rest).Nodup := by
        simpa [dictKeys, List.nodup_cons] using hnd
      have hrest : (dictKeys rest).Nodup := hpair.2
      rw [deep_merge_cons]
      by_cases hk : k = key
      · subst hk
        rw [dictGet_deep_merge_of_not_mem_override _ _ _
          ((dictGet_eq_none_iff rest k).mpr hpair.1)]
        rw [dictGet_deep_merge_step_self]
        rw [dictGet_cons, if_pos rfl]
      · rw [ih _ hrest]
        rw [dictGet_cons, if_neg hk]
        rw [dictGet_deep_merge_step_ne _ _ _ _ (Ne.symm hk)]

/-- If `base` holds a dictionary at `key` and every `override` entry for
`key` is a dictionary, the merge still holds a dictionary at `key`
(no uniqueness assumption needed). -/
theorem deep_merge_dict_at (override : PyDict) (base : PyDict) (key : String)
    (bd0 : PyDict) (hb : dictGet base key = some (PyVal.dict bd0))
    (ho : ∀ v, (key, v) ∈ override → ∃ d, v = PyVal.dict d) :
    ∃ d, dictGet (deep_merge base override) key = some (PyVal.dict d) := by
  induction override generalizing base bd0 with
  | nil => exact ⟨bd0, hb⟩
  | cons hd rest ih =>
      obtain ⟨k, v⟩ := hd
      rw [deep_merge_cons]
      by_cases hk : k = key
      · subst hk
        obtain ⟨od, rfl⟩ := ho v (List.mem_cons_self _ _)
        have hstep : dictGet (deep_merge_step base k (PyVal.dict od)) k =
            some (PyVal.dict (deep_merge bd0 od)) := by
          simp [deep_merge_step, hb]
        exact ih _ _ hstep (fun w hw => ho w (List.mem_cons_of_mem _ hw))
      · have hstep : dictGet (deep_merge_step base k v) key =
            some (PyVal.dict bd0) := by
          rw [dictGet_deep_merge_step_ne _ _ _ _ (Ne.symm hk), hb]
        exact ih _ _ hstep (fun w hw => ho w (List.mem_cons_of_mem _ hw))

theorem heapRead_heapWrite_ne (h : Heap) (a b : Nat) (d : HDict) (hne : a ≠ b) :
    heapRead (heapWrite h b d) a = heapRead h a :=
  List.getElem?_set_ne (Ne.symm hne)

theorem heapRead_append_lt (h : Heap) (d : HDict) (a : Nat) (ha : a < h.length) :
    heapRead (h ++ [d]) a = heapRead h a :=
  List.getElem?_append_left ha

@[simp] theorem heapWrite_length (h : Heap) (a : Nat) (d : HDict) :
    (heapWrite h a d).length = h.length := by
  simp [heapWrite]

/-- Frame property of the `for` loop of `_deep_merge`, assuming the frame
property of the recursive merge calls at the same fuel: the loop writes
only to the `result` object and to freshly allocated addresses. -/
theorem deep_merge_heap_loop_frame (recMerge : Heap → Nat → Nat → Option (Heap × Nat))
    (hD : ∀ h base override h2 result,
        recMerge h base override = some (h2, result) →
        (∀ a, a < h.length → heapRead h2 a = heapRead h a) ∧
          result = h.length ∧ h.length < h2.length) :
    ∀ l h result h2,
      deep_merge_heap_loop recMerge h result l = some h2 →
      result < h.length →
      (∀ a, a < h.length → a ≠ result → heapRead h2 a = heapRead h a) ∧
        h.length ≤ h2.length := by
  intro l
  induction l with
  | nil =>
      intro h result h2 heq _
      simp [deep_merge_heap_loop] at heq
      subst heq
      exact ⟨fun _ _ _ => rfl, Nat.le_refl _⟩
  | cons hd rest ih =>
      obtain ⟨key, value⟩ := hd
      intro h result h2 heq hlt
      rw [deep_merge_heap_loop] at heq
      cases hcur : heapRead h result with
      | none => rw [hcur] at heq; simp at heq
      | some cur =>
          rw [hcur] at heq
          simp only [Option.bind_eq_bind, Option.some_bind] at heq
          split at heq
          case _ bsub osub hbr =>
              cases hdm : recMerge h bsub osub with
              | none => rw [hdm] at heq; simp at heq
              | some pm =>
                  obtain ⟨h2m, m⟩ := pm
                  rw [hdm] at heq
                  simp only [Option.bind_eq_bind, Option.some_bind] at heq
                  obtain ⟨hfr1, _, hlt1⟩ := hD h bsub osub h2m m hdm
                  cases hcur2 : heapRead h2m result with
                  | none => rw [hcur2] at heq; simp at heq
                  | some cur2 =>
                      rw [hcur2] at heq
                      simp only [Option.bind_eq_bind, Option.some_bind] at heq
                      have hwlen :
                          (heapWrite h2m result (hdictSet cur2 key (HVal.ref m))).length =
                            h2m.length := heapWrite_length _ _ _
                      have hlt2 :
                          result < (heapWrite h2m result (hdictSet cur2 key (HVal.ref m))).length := by
                        rw [hwlen]
                        exact Nat.lt_of_lt_of_le hlt (Nat.le_of_lt hlt1)
                      obtain ⟨hfr2, hle2⟩ := ih _ result h2 heq hlt2
                      refine ⟨?_, ?_⟩
                      · intro a ha hne
                        have ha2 :
                            a < (heapWrite h2m result (hdictSet cur2 key (HVal.ref m))).length := by
                          rw [hwlen]
                          exact Nat.lt_of_lt_of_le ha (Nat.le_of_lt hlt1)
                        rw [hfr2 a ha2 hne]
                        rw [heapRead_heapWrite_ne h2m a result _ hne]
                        exact hfr1 a ha
                      · have hh : h.length ≤
                            (heapWrite h2m result (hdictSet cur2 key (HVal.ref m))).length := by
                          rw [hwlen]
                          exact Nat.le_of_lt hlt1
                        exact Nat.le_trans hh hle2
          case _ hbr =>
              have hwlen : (heapWrite h result (hdictSet cur key value)).length = h.length :=
                heapWrite_length _ _ _
              obtain ⟨hfr, hle⟩ := ih _ result h2 heq (hwlen ▸ hlt)
              refine ⟨?_, ?_⟩
              · intro a ha hne
                rw [hfr a (hwlen ▸ ha) hne]
                exact heapRead_heapWrite_ne h a result _ hne
              · exact hwlen ▸ hle

/-- Frame property of `_deep_merge` in the heap model: every address that
existed before the call holds the same object afterwards (neither input,
nor anything reachable from them, is mutated), and the returned object is
a freshly allocated address. -/
theorem deep_merge_heap_frame (fuel : Nat) :
    ∀ h base override h2 result,
      deep_merge_heap fuel h base override = some (h2, result) →
      (∀ a, a < h.length → heapRead h2 a = heapRead h a) ∧
        result = h.length ∧ h.length < h2.length := by
  induction fuel with
  | zero =>
      intro h base override h2 result heq
      simp [deep_merge_heap] at heq
  | succ n ih =>
      intro h base override h2 result heq
      rw [deep_merge_heap] at heq
      cases hbd : heapRead h base with
      | none => rw [hbd] at heq; simp at heq
      | some bd =>
          rw [hbd] at heq
          simp only [Option.bind_eq_bind, Option.some_bind] at heq
          cases hod : heapRead h override with
          | none => rw [hod] at heq; simp at heq
          | some od =>
              rw [hod] at heq
              simp only [Option.bind_eq_bind, Option.some_bind, heapAlloc] at heq
              cases hloop : deep_merge_heap_loop (deep_merge_heap n) (h ++ [bd]) h.length od with
              | none => rw [hloop] at heq; simp at heq
              | some h2x =>
                  rw [hloop] at heq
                  simp only [Option.bind_eq_bind, Option.some_bind, Option.pure_def, Option.some.injEq, Prod.mk.injEq] at heq
                  obtain ⟨rfl, rfl⟩ := heq
                  have hres_lt : h.length < (h ++ [bd]).length := by simp
                  obtain ⟨hfr, hle⟩ :=
                    deep_merge_heap_loop_frame (deep_merge_heap n) ih od (h ++ [bd]) h.length h2x
                      hloop hres_lt
                  refine ⟨?_, rfl, ?_⟩
                  · intro a ha
                    rw [hfr a (by simp; omega) (Nat.ne_of_lt ha)]
                    exact heapRead_append_lt h bd a ha
                  · have : h.length < (h ++ [bd]).length := by simp
                    exact Nat.lt_of_lt_of_le this hle

/-- A successful heap merge implies both input addresses were valid. -/
theorem deep_merge_heap_reads (fuel : Nat) (h : Heap) (b o : Nat) (h2 : Heap) (r : Nat)
    (hrun : deep_merge_heap fuel h b o = some (h2, r)) :
    b < h.length ∧ o < h.length := by
  cases fuel with
  | zero => simp [deep_merge_heap] at hrun
  | succ n =>
      rw [deep_merge_heap] at hrun
      cases hbd : heapRead h b with
      | none => rw [hbd] at hrun; simp at hrun
      | some bd =>
          rw [hbd] at hrun
          cases hod : heapRead h o with
          | none => rw [hod] at hrun; simp at hrun
          | some od =>
              constructor
              · by_contra hcon
                rw [heapRead, List.getElem?_eq_none (Nat.le_of_not_lt hcon)] at hbd
                cases hbd
              · by_contra hcon
                rw [heapRead, List.getElem?_eq_none (Nat.le_of_not_lt hcon)] at hod
                cases hod

theorem ok_bind {ε α β : Type} (a : α) (f : α → Except ε β) :
    (Except.ok a : Except ε α) >>= f = f a := rfl

theorem error_bind {ε α β : Type} (e : ε) (f : α → Except ε β) :
    (Except.error e : Except ε α) >>= f = Except.error e := rfl

theorem throw_eq {ε α : Type} (e : ε) : (throw e : Except ε α) = Except.error e := rfl

theorem pure_eq_ok {ε α : Type} (a : α) : (pure a : Except ε α) = Except.ok a := rfl

theorem map_ok {ε α β : Type} (f : α → β) (a : α) :
    f <$> (Except.ok a : Except ε α) = Except.ok (f a) := rfl

theorem map_error {ε α β : Type} (f : α → β) (e : ε) :
    f <$> (Except.error e : Except ε α) = Except.error e := rfl

theorem create_trace_bar_eq (x y : List PyVal) (name : String) :
    create_trace x y name "bar" Option.none =
      Except.ok [("x", PyVal.list x), ("y", PyVal.list y), ("name", PyVal.str name),
                 ("type", PyVal.str "bar")] := rfl

theorem create_trace_line_eq (x y : List PyVal) (name : String) :
    create_trace x y name "line" Option.none =
      Except.ok [("x", PyVal.list x), ("y", PyVal.list y), ("name", PyVal.str name),
                 ("type", PyVal.str "scatter"), ("mode", PyVal.str "lines"),
                 ("line", PyVal.dict [("width", PyVal.int 2)])] := rfl

theorem create_trace_scatter_eq (x y : List PyVal) (name : String) :
    create_trace x y name "scatter" Option.none =
      Except.ok [("x", PyVal.list x), ("y", PyVal.list y), ("name", PyVal.str name),
                 ("type", PyVal.str "scatter"), ("mode", PyVal.str "markers"),
                 ("marker", PyVal.dict [("size", PyVal.int 10)])] := rfl

theorem create_trace_unsupported_eq (x y : List PyVal) (name ct : String)
    (topts : Option PyDict) (h1 : ct ≠ "bar") (h2 : ct ≠ "line") (h3 : ct ≠ "scatter") :
    create_trace x y name ct topts = Except.error (BuildError.unsupportedKind ct) := by
  unfold create_trace
  simp [h1, h2, h3, throw_eq, error_bind]

theorem create_trace_error_shape (x y : List PyVal) (name ct : String)
    (topts : Option PyDict) (e : BuildError)
    (h : create_trace x y name ct topts = Except.error e) :
    e = BuildError.unsupportedKind ct := by
  by_cases h1 : ct = "bar"
  · subst h1
    cases topts with
    | none => simp [create_trace, ok_bind, pure_eq_ok] at h
    | some eo =>
        by_cases he : eo.isEmpty <;>
          simp [create_trace, ok_bind, pure_eq_ok, he] at h
  · by_cases h2 : ct = "line"
    · subst h2
      cases topts with
      | none => simp [create_trace, ok_bind, pure_eq_ok] at h
      | some eo =>
          by_cases he : eo.isEmpty <;>
            simp [create_trace, ok_bind, pure_eq_ok, he, h1] at h
    · by_cases h3 : ct = "scatter"
      · subst h3
        cases topts with
        | none => simp [create_trace, ok_bind, pure_eq_ok] at h
        | some eo =>
            by_cases he : eo.isEmpty <;>
              simp [create_trace, ok_bind, pure_eq_ok, he, h1, h2] at h
      · rw [create_trace_unsupported_eq x y name ct topts h1 h2 h3] at h
        injection h with h4
        exact h4.symm

theorem build_traces_ok_forall (x : List PyVal) (df : DataFrame) (ct : String)
    (topts : Option PyDict) :
    ∀ (l : List (String × String)) (ts : List PyDict),
      build_traces x df ct topts l = Except.ok ts →
      List.Forall₂ (fun (p : String × String) t =>
        create_trace x (df.colValues p.1) p.2 ct topts = Except.ok t) l ts := by
  intro l
  induction l with
  | nil =>
      intro ts h
      rw [build_traces, pure_eq_ok] at h
      injection h with h2
      subst h2
      exact List.Forall₂.nil
  | cons hd rest ih =>
      obtain ⟨yc, nm⟩ := hd
      intro ts h
      rw [build_traces] at h
      cases hct : create_trace x (df.colValues yc) nm ct topts with
      | error e => rw [hct, error_bind] at h; simp at h
      | ok t =>
          rw [hct, ok_bind] at h
          cases hbt : build_traces x df ct topts rest with
          | error e => rw [hbt, error_bind] at h; simp at h
          | ok ts2 =>
              rw [hbt, ok_bind] at h
              rw [pure_eq_ok] at h
              injection h with h2
              subst h2
              exact List.Forall₂.cons hct (ih ts2 hbt)

theorem build_traces_error_shape (x : List PyVal) (df : DataFrame) (ct : String)
    (topts : Option PyDict) :
    ∀ (l : List (String × String)) (e : BuildError),
      build_traces x df ct topts l = Except.error e →
      e = BuildError.unsupportedKind ct := by
  intro l
  induction l with
  | nil => intro e h; rw [build_traces, pure_eq_ok] at h; simp at h
  | cons hd rest ih =>
      obtain ⟨yc, nm⟩ := hd
      intro e h
      rw [build_traces] at h
      cases hct : create_trace x (df.colValues yc) nm ct topts with
      | error e2 =>
          rw [hct, error_bind] at h
          injection h with h2
          rw [← h2]
          exact create_trace_error_shape x (df.colValues yc) nm ct topts e2 hct
      | ok t =>
          rw [hct, ok_bind] at h
          cases hbt : build_traces x df ct topts rest with
          | error e2 =>
              rw [hbt, error_bind] at h
              injection h with h2
              rw [← h2]
              exact ih e2 hbt
          | ok ts2 => rw [hbt, ok_bind, pure_eq_ok] at h; simp at h

theorem build_traces_all_ok (x : List PyVal) (df : DataFrame) (ct : String)
    (topts : Option PyDict) :
    ∀ (l : List (String × String)),
      (∀ p ∈ l, ∃ t, create_trace x (df.colValues p.1) p.2 ct topts = Except.ok t) →
      ∃ ts, build_traces x df ct topts l = Except.ok ts := by
  intro l
  induction l with
  | nil => intro _; exact ⟨[], rfl⟩
  | cons hd rest ih =>
      intro hall
      obtain ⟨t, ht⟩ := hall hd (List.mem_cons_self hd rest)
      obtain ⟨ts, hts⟩ := ih (fun p hp => hall p (List.mem_cons_of_mem _ hp))
      obtain ⟨yc, nm⟩ := hd
      refine ⟨t :: ts, ?_⟩
      rw [build_traces, ht, ok_bind, hts, ok_bind, pure_eq_ok]

theorem dataframe_to_plotly_missing_eq (df : DataFrame) (x : String) (ycs0 : StrOrStrList)
    (ct : String) (layout : Option PyDict) (tns : Option (List String))
    (topts : Option PyDict)
    (hmiss : (missingCols df x ycs0).isEmpty = false) :
    dataframe_to_plotly df x ycs0 ct layout tns topts =
      Except.error (BuildError.missingColumns (missingCols df x ycs0)) := by
  rw [missingCols] at hmiss ⊢
  simp only [dataframe_to_plotly]
  rw [hmiss]
  simp [throw_eq, error_bind, map_ok, map_error]

theorem dataframe_to_plotly_mismatch_eq (df : DataFrame) (x : String) (ycs0 : StrOrStrList)
    (ct : String) (layout : Option PyDict) (tn : List String) (topts : Option PyDict)
    (hmiss : (missingCols df x ycs0).isEmpty = true)
    (hlen : tn.length ≠ (normalizeYColumns ycs0).length) :
    dataframe_to_plotly df x ycs0 ct layout (some tn) topts =
      Except.error (BuildError.lengthMismatch tn.length (normalizeYColumns ycs0).length) := by
  rw [missingCols] at hmiss
  simp only [dataframe_to_plotly]
  rw [hmiss]
  simp [hlen, throw_eq, error_bind, pure_eq_ok, ok_bind, map_ok, map_error]

theorem dataframe_to_plotly_ok_none_eq (df : DataFrame) (x : String) (ycs0 : StrOrStrList)
    (ct : String) (layout : Option PyDict) (topts : Option PyDict) (traces : List PyDict)
    (hmiss : (missingCols df x ycs0).isEmpty = true)
    (htr : build_traces (df.colValues x) df ct topts
      ((normalizeYColumns ycs0).zip (normalizeYColumns ycs0)) = Except.ok traces) :
    dataframe_to_plotly df x ycs0 ct layout Option.none topts =
      Except.ok [("data", PyVal.list (traces.map PyVal.dict)),
        ("layout", PyVal.dict (mergeLayoutDefaults ct traces.length layout))] := by
  rw [missingCols] at hmiss
  simp only [dataframe_to_plotly]
  rw [hmiss]
  simp [htr, throw_eq, error_bind, pure_eq_ok, ok_bind, map_ok, map_error]

theorem dataframe_to_plotly_ok_some_eq (df : DataFrame) (x : String) (ycs0 : StrOrStrList)
    (ct : String) (layout : Option PyDict) (tn : List String) (topts : Option PyDict)
    (traces : List PyDict)
    (hmiss : (missingCols df x ycs0).isEmpty = true)
    (hlen : tn.length = (normalizeYColumns ycs0).length)
    (htr : build_traces (df.colValues x) df ct topts
      ((normalizeYColumns ycs0).zip tn) = Except.ok traces) :
    dataframe_to_plotly df x ycs0 ct layout (some tn) topts =
      Except.ok [("data", PyVal.list (traces.map PyVal.dict)),
        ("layout", PyVal.dict (mergeLayoutDefaults ct traces.length layout))] := by
  rw [missingCols] at hmiss
  simp only [dataframe_to_plotly]
  rw [hmiss]
  simp [hlen, htr, throw_eq, error_bind, pure_eq_ok, ok_bind, map_ok, map_error]

theorem dataframe_to_plotly_traces_error_none_eq (df : DataFrame) (x : String)
    (ycs0 : StrOrStrList) (ct : String) (layout : Option PyDict) (topts : Option PyDict)
    (e : BuildError)
    (hmiss : (missingCols df x ycs0).isEmpty = true)
    (htr : build_traces (df.colValues x) df ct topts
      ((normalizeYColumns ycs0).zip (normalizeYColumns ycs0)) = Except.error e) :
    dataframe_to_plotly df x ycs0 ct layout Option.none topts = Except.error e := by
  rw [missingCols] at hmiss
  simp only [dataframe_to_plotly]
  rw [hmiss]
  simp [htr, throw_eq, error_bind, pure_eq_ok, ok_bind, map_ok, map_error]

theorem dataframe_to_plotly_traces_error_some_eq (df : DataFrame) (x : String)
    (ycs0 : StrOrStrList) (ct : String) (layout : Option PyDict) (tn : List String)
    (topts : Option PyDict) (e : BuildError)
    (hmiss : (missingCols df x ycs0).isEmpty = true)
    (hlen : tn.length = (normalizeYColumns ycs0).length)
    (htr : build_traces (df.colValues x) df ct topts
      ((normalizeYColumns ycs0).zip tn) = Except.error e) :
    dataframe_to_plotly df x ycs0 ct layout (some tn) topts = Except.error e := by
  rw [missingCols] at hmiss
  simp only [dataframe_to_plotly]
  rw [hmiss]
  simp [hlen, htr, throw_eq, error_bind, pure_eq_ok, ok_bind, map_ok, map_error]

/-- Inversion: a successful build determines the trace names, traces and
the exact figure document. -/
theorem dataframe_to_plotly_ok_inv (df : DataFrame) (x : String) (ycs0 : StrOrStrList)
    (ct : String) (layout : Option PyDict) (tns : Option (List String))
    (topts : Option PyDict) (fig : PyDict)
    (h : dataframe_to_plotly df x ycs0 ct layout tns topts = Except.ok fig) :
    ∃ trace_names traces,
      ((tns = Option.none ∧ trace_names = normalizeYColumns ycs0) ∨
        (tns = some trace_names ∧ trace_names.length = (normalizeYColumns ycs0).length)) ∧
      build_traces (df.colValues x) df ct topts
        ((normalizeYColumns ycs0).zip trace_names) = Except.ok traces ∧
      fig = [("data", PyVal.list (traces.map PyVal.dict)),
        ("layout", PyVal.dict (mergeLayoutDefaults ct traces.length layout))] := by
  cases hmiss : (missingCols df x ycs0).isEmpty with
  | false =>
      rw [dataframe_to_plotly_missing_eq df x ycs0 ct layout tns topts hmiss] at h
      simp at h
  | true =>
      cases tns with
      | none =>
          cases htr : build_traces (df.colValues x) df ct topts
              ((normalizeYColumns ycs0).zip (normalizeYColumns ycs0)) with
          | error e =>
              rw [dataframe_to_plotly_traces_error_none_eq df x ycs0 ct layout topts e
                hmiss htr] at h
              simp at h
          | ok ts =>
              rw [dataframe_to_plotly_ok_none_eq df x ycs0 ct layout topts ts hmiss htr] at h
              injection h with h2
              exact ⟨normalizeYColumns ycs0, ts, Or.inl ⟨rfl, rfl⟩, htr, h2.symm⟩
      | some tn =>
          by_cases hlen : tn.length = (normalizeYColumns ycs0).length
          · cases htr : build_traces (df.colValues x) df ct topts
                ((normalizeYColumns ycs0).zip tn) with
            | error e =>
                rw [dataframe_to_plotly_traces_error_some_eq df x ycs0 ct layout tn topts e
                  hmiss hlen htr] at h
                simp at h
            | ok ts =>
                rw [dataframe_to_plotly_ok_some_eq df x ycs0 ct layout tn topts ts
                  hmiss hlen htr] at h
                injection h with h2
                exact ⟨tn, ts, Or.inr ⟨rfl, hlen⟩, htr, h2.symm⟩
          · rw [dataframe_to_plotly_mismatch_eq df x ycs0 ct layout tn topts hmiss hlen] at h
            simp at h

/-- After the column validation succeeds, no `missingColumns` error can be
produced any more. -/
theorem dataframe_to_plotly_no_missing (df : DataFrame) (x : String) (ycs0 : StrOrStrList)
    (ct : String) (layout : Option PyDict) (tns : Option (List String))
    (topts : Option PyDict) (m : List String)
    (hmiss : (missingCols df x ycs0).isEmpty = true) :
    dataframe_to_plotly df x ycs0 ct layout tns topts ≠
      Except.error (BuildError.missingColumns m) := by
  intro hcontra
  cases tns with
  | none =>
      cases htr : build_traces (df.colValues x) df ct topts
          ((normalizeYColumns ycs0).zip (normalizeYColumns ycs0)) with
      | error e =>
          rw [dataframe_to_plotly_traces_error_none_eq df x ycs0 ct layout topts e
            hmiss htr] at hcontra
          have hshape := build_traces_error_shape (df.colValues x) df ct topts _ e htr
          subst hshape
          simp at hcontra
      | ok ts =>
          rw [dataframe_to_plotly_ok_none_eq df x ycs0 ct layout topts ts hmiss htr] at hcontra
          simp at hcontra
  | some tn =>
      by_cases hlen : tn.length = (normalizeYColumns ycs0).length
      · cases htr : build_traces (df.colValues x) df ct topts
            ((normalizeYColumns ycs0).zip tn) with
        | error e =>
            rw [dataframe_to_plotly_traces_error_some_eq df x ycs0 ct layout tn topts e
              hmiss hlen htr] at hcontra
            have hshape := build_traces_error_shape (df.colValues x) df ct topts _ e htr
            subst hshape
            simp at hcontra
        | ok ts =>
            rw [dataframe_to_plotly_ok_some_eq df x ycs0 ct layout tn topts ts
              hmiss hlen htr] at hcontra
            simp at hcontra
      · rw [dataframe_to_plotly_mismatch_eq df x ycs0 ct layout tn topts hmiss hlen] at hcontra
        simp at hcontra

/-- C6: `_deep_merge` is right-biased: a key of `override` keeps its
override value whenever that value is not a mapping, or the key is absent
from `base`, or the base value is not a mapping; keys absent from
`override` are preserved unchanged from `base`; list values from
`override` replace wholesale. (`override` has unique keys, as every
Python dictionary does.) -/
theorem c6_deep_merge_right_biased (a b : PyDict) (hnd : (dictKeys b).Nodup) :
    (∀ k v, dictGet b k = some v →
      (isDictVal v = false ∨ dictGet a k = Option.none ∨
        (∀ w, dictGet a k = some w → isDictVal w = false)) →
      dictGet (deep_merge a b) k = some v) ∧
    (∀ k, dictGet b k = Option.none → dictGet (deep_merge a b) k = dictGet a k) ∧
    (∀ k l, dictGet b k = some (PyVal.list l) →
      dictGet (deep_merge a b) k = some (PyVal.list l)) := by
  refine ⟨?_, ?_, ?_⟩
  · intro k v hv hside
    rw [dictGet_deep_merge b a k hnd, hv]
    cases ha : dictGet a k with
    | none => cases v <;> rfl
    | some w =>
        cases w with
        | dict bd =>
            cases v with
            | dict od =>
                rcases hside with hval | hnone | hsome
                · simp [isDictVal] at hval
                · rw [ha] at hnone; cases hnone
                · have := hsome (PyVal.dict bd) ha
                  simp [isDictVal] at this
            | none => rfl
            | bool bb => rfl
            | int n => rfl
            | str s => rfl
            | list l => rfl
        | none => cases v <;> rfl
        | bool bb => cases v <;> rfl
        | int n => cases v <;> rfl
        | str s => cases v <;> rfl
        | list l => cases v <;> rfl
  · intro k hk
    rw [dictGet_deep_merge b a k hnd, hk]
  · intro k l hl
    rw [dictGet_deep_merge b a k hnd, hl]
    cases ha : dictGet a k with
    | none => rfl
    | some w => cases w <;> rfl

/-- Witness for C6 at concrete dictionaries. -/
theorem c6_deep_merge_right_biased_witness :
    dictGet (deep_merge
        [("x", PyVal.int 1), ("only", PyVal.str "base"), ("sub", PyVal.dict [("k", PyVal.int 1)])]
        [("x", PyVal.int 2), ("arr", PyVal.list [PyVal.int 7])]) "x" = some (PyVal.int 2) ∧
    dictGet (deep_merge
        [("x", PyVal.int 1), ("only", PyVal.str "base"), ("sub", PyVal.dict [("k", PyVal.int 1)])]
        [("x", PyVal.int 2), ("arr", PyVal.list [PyVal.int 7])]) "only" =
      some (PyVal.str "base") ∧
    dictGet (deep_merge
        [("x", PyVal.int 1), ("only", PyVal.str "base"), ("sub", PyVal.dict [("k", PyVal.int 1)])]
        [("x", PyVal.int 2), ("arr", PyVal.list [PyVal.int 7])]) "arr" =
      some (PyVal.list [PyVal.int 7]) := by
  have h := c6_deep_merge_right_biased
    [("x", PyVal.int 1), ("only", PyVal.str "base"), ("sub", PyVal.dict [("k", PyVal.int 1)])]
    [("x", PyVal.int 2), ("arr", PyVal.list [PyVal.int 7])] (by decide)
  exact ⟨h.1 "x" (PyVal.int 2) rfl (Or.inl rfl), h.2.1 "only" rfl,
    h.2.2 "arr" [PyVal.int 7] rfl⟩

/-- C7: `_deep_merge` never mutates either input: in the heap model, a
successful run leaves every pre-existing address holding exactly the
object it held before the call (in particular both inputs and everything
reachable from them), and returns a freshly allocated address. -/
theorem c7_deep_merge_no_mutation (fuel : Nat) (h : Heap) (base override : Nat)
    (h2 : Heap) (result : Nat)
    (hrun : deep_merge_heap fuel h base override = some (h2, result)) :
    (∀ a, a < h.length → heapRead h2 a = heapRead h a) ∧
      heapRead h2 base = heapRead h base ∧
      heapRead h2 override = heapRead h override ∧
      h.length ≤ result := by
  obtain ⟨hb, ho⟩ := deep_merge_heap_reads fuel h base override h2 result hrun
  obtain ⟨hfr, hres, _⟩ := deep_merge_heap_frame fuel h base override h2 result hrun
  exact ⟨hfr, hfr base hb, hfr override ho, Nat.le_of_eq hres.symm⟩

/-- Witness for C7: a concrete two-dictionary heap, merged successfully;
address 0 (the base input) is unchanged and the result is fresh. -/
theorem c7_deep_merge_no_mutation_witness :
    heapRead [[("x", HVal.int 1)], [("x", HVal.int 2)], [("x", HVal.int 2)]] 0 =
      heapRead [[("x", HVal.int 1)], [("x", HVal.int 2)]] 0 ∧
    ([[("x", HVal.int 1)], [("x", HVal.int 2)]] : Heap).length ≤ 2 := by
  have h := c7_deep_merge_no_mutation 2 [[("x", HVal.int 1)], [("x", HVal.int 2)]] 0 1
    [[("x", HVal.int 1)], [("x", HVal.int 2)], [("x", HVal.int 2)]] 2 rfl
  exact ⟨h.1 0 (by decide), h.2.2.2⟩

/-- C8: `get_colors` is a pure function of the theme configuration and the
dark-mode flag read from user storage at call time: a truthy flag yields
the dark background, white text and the translucent white 10%-opacity
grid; a falsy flag yields the light background, black text and the
translucent black 10%-opacity grid; hence flipping the stored flag
changes subsequent outputs. -/
theorem c8_get_colors (theme : PlotlyTheme) (s1 s2 : PyDict)
    (h1 : pyTruthy (PlotlyTheme.is_dark_mode s1) = true)
    (h2 : pyTruthy (PlotlyTheme.is_dark_mode s2) = false) :
    theme.get_colors s1 =
      (theme.dark_page_color, "white", "rgba(255, 255, 255, 0.1)") ∧
    theme.get_colors s2 =
      (theme.light_page_color, "black", "rgba(0, 0, 0, 0.1)") ∧
    theme.get_colors s1 ≠ theme.get_colors s2 := by
  have e1 : theme.get_colors s1 =
      (theme.dark_page_color, "white", "rgba(255, 255, 255, 0.1)") := by
    simp [PlotlyTheme.get_colors, h1]
  have e2 : theme.get_colors s2 =
      (theme.light_page_color, "black", "rgba(0, 0, 0, 0.1)") := by
    simp [PlotlyTheme.get_colors, h2]
  refine ⟨e1, e2, ?_⟩
  rw [e1, e2]
  intro hcon
  have hw := congrArg (fun p => p.2.1) hcon
  simp at hw

/-- Witness for C8: empty storage defaults the flag to `True` (dark);
storage with `dark_mode = False` flips the colours. -/
theorem c8_get_colors_witness :
    PlotlyTheme.get_colors exampleTheme [] =
      ("#121212", "white", "rgba(255, 255, 255, 0.1)") ∧
    PlotlyTheme.get_colors exampleTheme [("dark_mode", PyVal.bool false)] =
      ("white", "black", "rgba(0, 0, 0, 0.1)") := by
  have h := c8_get_colors exampleTheme [] [("dark_mode", PyVal.bool false)] rfl rfl
  exact ⟨h.1, h.2.1⟩

/-- C10: with an empty y-column list and a dataset containing the x
column, the builder raises no error for any kind string (the per-kind
validation runs only inside the per-trace loop): it returns a figure with
an empty data sequence and the default margin layout, without a barmode
key. -/
theorem c10_empty_ykeys (df : DataFrame) (x ct : String) (hx : x ∈ df.columns) :
    dataframe_to_plotly df x (StrOrStrList.list []) ct Option.none Option.none Option.none =
      Except.ok [("data", PyVal.list []),
        ("layout", PyVal.dict [("margin", PyVal.dict
          [("l", PyVal.int 40), ("r", PyVal.int 20), ("t", PyVal.int 40), ("b", PyVal.int 40)])])] ∧
    dictGet (mergeLayoutDefaults ct 0 Option.none) "barmode" = Option.none := by
  have hmiss : (missingCols df x (StrOrStrList.list [])).isEmpty = true := by
    rw [missingCols]
    simp [normalizeYColumns, hx]
  have h := dataframe_to_plotly_ok_none_eq df x (StrOrStrList.list []) ct Option.none
    Option.none [] hmiss rfl
  constructor
  · rw [h]
    simp [mergeLayoutDefaults]
  · simp [mergeLayoutDefaults, dictGet]

/-- Witness for C10 at a concrete dataset and an unknown kind string. -/
theorem c10_empty_ykeys_witness :
    dataframe_to_plotly exampleDf "month" (StrOrStrList.list []) "definitely-not-a-kind"
        Option.none Option.none Option.none =
      Except.ok [("data", PyVal.list []),
        ("layout", PyVal.dict [("margin", PyVal.dict
          [("l", PyVal.int 40), ("r", PyVal.int 20), ("t", PyVal.int 40), ("b", PyVal.int 40)])])] ∧
    dictGet (mergeLayoutDefaults "definitely-not-a-kind" 0 Option.none) "barmode" =
      Option.none :=
  c10_empty_ykeys exampleDf "month" "definitely-not-a-kind" (by decide)

theorem missingCols_isEmpty_of_all_present (df : DataFrame) (x : String) (ycs0 : StrOrStrList)
    (hall : ∀ c ∈ [x] ++ normalizeYColumns ycs0, c ∈ df.columns) :
    (missingCols df x ycs0).isEmpty = true := by
  rw [missingCols, List.isEmpty_iff, List.filter_eq_nil_iff]
  intro c hc
  simpa using hall c hc

theorem forall2_mem_right {α β : Type} {R : α → β → Prop} :
    ∀ {l : List α} {ts : List β}, List.Forall₂ R l ts → ∀ t ∈ ts, ∃ p ∈ l, R p t := by
  intro l ts hf
  induction hf with
  | nil => intro t ht; cases ht
  | @cons a b l2 ts2 hR htail ih =>
      intro t ht
      rcases List.mem_cons.mp ht with rfl | ht2
      · exact ⟨a, List.mem_cons_self a l2, hR⟩
      · obtain ⟨p, hp, hR2⟩ := ih t ht2
        exact ⟨p, List.mem_cons_of_mem a hp, hR2⟩

theorem create_trace_ok_name (x y : List PyVal) (nm ct : String) (t : PyDict)
    (h : create_trace x y nm ct Option.none = Except.ok t) :
    dictGet t "name" = some (PyVal.str nm) := by
  by_cases h1 : ct = "bar"
  · subst h1; rw [create_trace_bar_eq] at h; injection h with h2; subst h2; rfl
  · by_cases h2 : ct = "line"
    · subst h2; rw [create_trace_line_eq] at h; injection h with h3; subst h3; rfl
    · by_cases h3 : ct = "scatter"
      · subst h3; rw [create_trace_scatter_eq] at h; injection h with h4; subst h4; rfl
      · rw [create_trace_unsupported_eq x y nm ct Option.none h1 h2 h3] at h; cases h

theorem build_traces_names_map (x : List PyVal) (df : DataFrame) (ct : String) :
    ∀ (l : List (String × String)) (ts : List PyDict),
      build_traces x df ct Option.none l = Except.ok ts →
      ts.map (fun t => dictGet t "name") = l.map (fun p => some (PyVal.str p.2)) := by
  intro l
  induction l with
  | nil =>
      intro ts h
      rw [build_traces, pure_eq_ok] at h
      injection h with h2
      subst h2
      rfl
  | cons hd rest ih =>
      obtain ⟨yc, nm⟩ := hd
      intro ts h
      rw [build_traces] at h
      cases hct : create_trace x (df.colValues yc) nm ct Option.none with
      | error e => rw [hct, error_bind] at h; cases h
      | ok t =>
          rw [hct, ok_bind] at h
          cases hbt : build_traces x df ct Option.none rest with
          | error e => rw [hbt, error_bind] at h; cases h
          | ok ts2 =>
              rw [hbt, ok_bind, pure_eq_ok] at h
              injection h with h2
              subst h2
              simp only [List.map_cons]
              rw [create_trace_ok_name x (df.colValues yc) nm ct t hct, ih ts2 hbt]

theorem zip_self_map_snd {α β : Type} (f : α → β) :
    ∀ l : List α, (l.zip l).map (fun p => f p.2) = l.map f := by
  intro l
  induction l with
  | nil => rfl
  | cons a rest ih => simp only [List.zip_cons_cons, List.map_cons, ih]

/-- C3: the builder fails with a `MissingColumn` error naming every
missing key exactly when some requested column (xKey or a yKey) is absent
from the dataset's column set, and never produces a `MissingColumn` error
when all requested keys are present. -/
theorem c3_missing_column_validation (df : DataFrame) (x : String) (ycs0 : StrOrStrList)
    (ct : String) (layout : Option PyDict) (tns : Option (List String))
    (topts : Option PyDict) :
    ((∃ c ∈ [x] ++ normalizeYColumns ycs0, c ∉ df.columns) →
      dataframe_to_plotly df x ycs0 ct layout tns topts =
        Except.error (BuildError.missingColumns (missingCols df x ycs0)) ∧
      (∀ c ∈ [x] ++ normalizeYColumns ycs0, c ∉ df.columns → c ∈ missingCols df x ycs0) ∧
      (∀ c ∈ missingCols df x ycs0, c ∉ df.columns)) ∧
    ((∀ c ∈ [x] ++ normalizeYColumns ycs0, c ∈ df.columns) →
      ∀ m, dataframe_to_plotly df x ycs0 ct layout tns topts ≠
        Except.error (BuildError.missingColumns m)) := by
  constructor
  · rintro ⟨c, hc, hcn⟩
    have hcmem : c ∈ missingCols df x ycs0 := by
      rw [missingCols]
      exact List.mem_filter.mpr ⟨hc, by simpa using hcn⟩
    have hmiss : (missingCols df x ycs0).isEmpty = false := by
      cases he : (missingCols df x ycs0).isEmpty
      · rfl
      · exfalso
        rw [List.isEmpty_iff] at he
        rw [he] at hcmem
        cases hcmem
    refine ⟨dataframe_to_plotly_missing_eq df x ycs0 ct layout tns topts hmiss, ?_, ?_⟩
    · intro c2 hc2 hcn2
      rw [missingCols]
      exact List.mem_filter.mpr ⟨hc2, by simpa using hcn2⟩
    · intro c2 hc2
      rw [missingCols] at hc2
      simpa using (List.mem_filter.mp hc2).2
  · intro hall m
    exact dataframe_to_plotly_no_missing df x ycs0 ct layout tns topts m
      (missingCols_isEmpty_of_all_present df x ycs0 hall)

/-- Witness for C3: a missing x column is reported by name; with all
columns present no MissingColumn error occurs. -/
theorem c3_missing_column_validation_witness :
    dataframe_to_plotly exampleDf "bogus" (StrOrStrList.list ["sales"]) "bar"
        Option.none Option.none Option.none =
      Except.error (BuildError.missingColumns ["bogus"]) ∧
    dataframe_to_plotly exampleDf "month" (StrOrStrList.list ["sales"]) "bar"
        Option.none Option.none Option.none ≠
      Except.error (BuildError.missingColumns []) := by
  constructor
  · exact ((c3_missing_column_validation exampleDf "bogus" (StrOrStrList.list ["sales"]) "bar"
      Option.none Option.none Option.none).1 ⟨"bogus", by decide, by decide⟩).1
  · exact (c3_missing_column_validation exampleDf "month" (StrOrStrList.list ["sales"]) "bar"
      Option.none Option.none Option.none).2 (by decide) []

/-- C1 counterexample: on the spec §8 dataset, a bar build with two
y-columns yields `layout.barmode == "group"`, not `"grouped"` as the
claim states. -/
theorem c1_barmode_grouped_counterexample :
    (dataframe_to_plotly exampleDf "month" (StrOrStrList.list ["sales", "revenue"]) "bar"
        Option.none Option.none Option.none).map
      (fun fig => dictGet (figLayout fig) "barmode") =
      Except.ok (some (PyVal.str "group")) ∧
    some (PyVal.str "group") ≠ some (PyVal.str "grouped") := by
  refine ⟨rfl, ?_⟩
  intro hcon
  injection hcon with h1
  injection h1 with h2
  exact absurd h2 (by decide)

/-- C1 (amended): for every dataset and a bar chart with more than one
y-column, provided the layout override (if any) does not itself contain
a "barmode" key, the figure returned by the builder has `layout.barmode`
equal to `"group"` (Plotly's value for side-by-side grouped bars). -/
theorem c1_barmode_group (df : DataFrame) (x : String) (ycs : List String)
    (layout : Option PyDict) (tns : Option (List String)) (topts : Option PyDict)
    (fig : PyDict) (hlen : 1 < ycs.length)
    (hbm : ∀ l, layout = some l → dictGet l "barmode" = Option.none)
    (hok : dataframe_to_plotly df x (StrOrStrList.list ycs) "bar" layout tns topts =
      Except.ok fig) :
    dictGet (figLayout fig) "barmode" = some (PyVal.str "group") := by
  obtain ⟨tn, traces, htn, htr, rfl⟩ :=
    dataframe_to_plotly_ok_inv df x (StrOrStrList.list ycs) "bar" layout tns topts fig hok
  have hforall := build_traces_ok_forall (df.colValues x) df "bar" topts _ traces htr
  have hlen2 : traces.length =
      ((normalizeYColumns (StrOrStrList.list ycs)).zip tn).length :=
    (List.Forall₂.length_eq hforall).symm
  have hzip : ((normalizeYColumns (StrOrStrList.list ycs)).zip tn).length = ycs.length := by
    rcases htn with ⟨-, rfl⟩ | ⟨-, hl⟩
    · simp [normalizeYColumns]
    · simp [normalizeYColumns, List.length_zip, hl]
  have htlen : 1 < traces.length := by
    rw [hlen2, hzip]
    exact hlen
  have hfl : figLayout [("data", PyVal.list (traces.map PyVal.dict)),
      ("layout", PyVal.dict (mergeLayoutDefaults "bar" traces.length layout))] =
      mergeLayoutDefaults "bar" traces.length layout := by
    simp [figLayout, dictGet]
  rw [hfl]
  simp only [mergeLayoutDefaults]
  rw [if_pos ⟨trivial, htlen⟩]
  cases layout with
  | none => simp
  | some l =>
      by_cases he : l.isEmpty = true
      · simp [he]
      · simp only [he, if_false]
        rw [if_neg Bool.false_ne_true]
        rw [dictGet_deep_merge_of_not_mem_override _ _ _ (hbm l rfl)]
        simp

/-- Witness for C1 (amended) at the spec §8 dataset. -/
theorem c1_barmode_group_witness :
    dictGet (figLayout [("data", PyVal.list
      [PyVal.dict [("x", PyVal.list [PyVal.str "Jan", PyVal.str "Feb"]),
                   ("y", PyVal.list [PyVal.int 10, PyVal.int 5]),
                   ("name", PyVal.str "sales"), ("type", PyVal.str "bar")],
       PyVal.dict [("x", PyVal.list [PyVal.str "Jan", PyVal.str "Feb"]),
                   ("y", PyVal.list [PyVal.int 20, PyVal.int 8]),
                   ("name", PyVal.str "revenue"), ("type", PyVal.str "bar")]]),
      ("layout", PyVal.dict
        [("margin", PyVal.dict [("l", PyVal.int 40), ("r", PyVal.int 20),
          ("t", PyVal.int 40), ("b", PyVal.int 40)]),
         ("barmode", PyVal.str "group")])]) "barmode" = some (PyVal.str "group") :=
  c1_barmode_group exampleDf "month" ["sales", "revenue"] Option.none Option.none Option.none
    _ (by decide) (fun l hl => by cases hl) rfl

/-- C4: with all requested columns present and at least one y-column, an
unknown kind fails with `UnsupportedKind`; kind "bar" yields bar traces;
kind "line" yields connected line traces without markers; kind "scatter"
yields markers-only traces with the fixed default marker size 10. -/
theorem c4_kind_dispatch (df : DataFrame) (x : String) (ycs : List String)
    (ct : String) (layout : Option PyDict)
    (hcols : ∀ c ∈ [x] ++ ycs, c ∈ df.columns) (hne : ycs ≠ []) :
    ((ct ≠ "bar" ∧ ct ≠ "line" ∧ ct ≠ "scatter") →
      dataframe_to_plotly df x (StrOrStrList.list ycs) ct layout Option.none Option.none =
        Except.error (BuildError.unsupportedKind ct)) ∧
    (∀ fig, dataframe_to_plotly df x (StrOrStrList.list ycs) "bar" layout
        Option.none Option.none = Except.ok fig →
      ∀ t ∈ figTraces fig, traceField t "type" = some (PyVal.str "bar")) ∧
    (∀ fig, dataframe_to_plotly df x (StrOrStrList.list ycs) "line" layout
        Option.none Option.none = Except.ok fig →
      ∀ t ∈ figTraces fig, traceField t "type" = some (PyVal.str "scatter") ∧
        traceField t "mode" = some (PyVal.str "lines") ∧
        traceField t "marker" = Option.none) ∧
    (∀ fig, dataframe_to_plotly df x (StrOrStrList.list ycs) "scatter" layout
        Option.none Option.none = Except.ok fig →
      ∀ t ∈ figTraces fig, traceField t "mode" = some (PyVal.str "markers") ∧
        traceField t "marker" = some (PyVal.dict [("size", PyVal.int 10)])) := by
  have hmiss : (missingCols df x (StrOrStrList.list ycs)).isEmpty = true :=
    missingCols_isEmpty_of_all_present df x _ (fun c hc => hcols c hc)
  refine ⟨?_, ?_, ?_, ?_⟩
  · rintro ⟨h1, h2, h3⟩
    obtain ⟨c0, rest, rfl⟩ : ∃ c0 rest, ycs = c0 :: rest := by
      cases ycs with
      | nil => exact absurd rfl hne
      | cons c0 rest => exact ⟨c0, rest, rfl⟩
    have htr : build_traces (df.colValues x) df ct Option.none
        ((normalizeYColumns (StrOrStrList.list (c0 :: rest))).zip
          (normalizeYColumns (StrOrStrList.list (c0 :: rest)))) =
        Except.error (BuildError.unsupportedKind ct) := by
      show build_traces _ df ct Option.none ((c0 :: rest).zip (c0 :: rest)) = _
      rw [List.zip_cons_cons, build_traces,
        create_trace_unsupported_eq _ _ _ ct Option.none h1 h2 h3, error_bind]
    exact dataframe_to_plotly_traces_error_none_eq df x _ ct layout Option.none _ hmiss htr
  · intro fig hok t ht
    obtain ⟨tn, traces, htn, htr, rfl⟩ :=
      dataframe_to_plotly_ok_inv df x (StrOrStrList.list ycs) "bar" layout
        Option.none Option.none fig hok
    have hfig : figTraces [("data", PyVal.list (traces.map PyVal.dict)),
        ("layout", PyVal.dict (mergeLayoutDefaults "bar" traces.length layout))] =
        traces.map PyVal.dict := by
      simp [figTraces, dictGet]
    rw [hfig] at ht
    obtain ⟨d, hd, rfl⟩ := List.mem_map.mp ht
    obtain ⟨p, hp, hcre⟩ := forall2_mem_right
      (build_traces_ok_forall (df.colValues x) df "bar" Option.none _ traces htr) d hd
    rw [create_trace_bar_eq] at hcre
    injection hcre with hd2
    subst hd2
    rfl
  · intro fig hok t ht
    obtain ⟨tn, traces, htn, htr, rfl⟩ :=
      dataframe_to_plotly_ok_inv df x (StrOrStrList.list ycs) "line" layout
        Option.none Option.none fig hok
    have hfig : figTraces [("data", PyVal.list (traces.map PyVal.dict)),
        ("layout", PyVal.dict (mergeLayoutDefaults "line" traces.length layout))] =
        traces.map PyVal.dict := by
      simp [figTraces, dictGet]
    rw [hfig] at ht
    obtain ⟨d, hd, rfl⟩ := List.mem_map.mp ht
    obtain ⟨p, hp, hcre⟩ := forall2_mem_right
      (build_traces_ok_forall (df.colValues x) df "line" Option.none _ traces htr) d hd
    rw [create_trace_line_eq] at hcre
    injection hcre with hd2
    subst hd2
    exact ⟨rfl, rfl, rfl⟩
  · intro fig hok t ht
    obtain ⟨tn, traces, htn, htr, rfl⟩ :=
      dataframe_to_plotly_ok_inv df x (StrOrStrList.list ycs) "scatter" layout
        Option.none Option.none fig hok
    have hfig : figTraces [("data", PyVal.list (traces.map PyVal.dict)),
        ("layout", PyVal.dict (mergeLayoutDefaults "scatter" traces.length layout))] =
        traces.map PyVal.dict := by
      simp [figTraces, dictGet]
    rw [hfig] at ht
    obtain ⟨d, hd, rfl⟩ := List.mem_map.mp ht
    obtain ⟨p, hp, hcre⟩ := forall2_mem_right
      (build_traces_ok_forall (df.colValues x) df "scatter" Option.none _ traces htr) d hd
    rw [create_trace_scatter_eq] at hcre
    injection hcre with hd2
    subst hd2
    exact ⟨rfl, rfl⟩

/-- Witness for C4: an unknown kind "pie" errors; the bar build's single
trace is a bar trace. -/
theorem c4_kind_dispatch_witness :
    dataframe_to_plotly exampleDf "month" (StrOrStrList.list ["sales"]) "pie"
        Option.none Option.none Option.none =
      Except.error (BuildError.unsupportedKind "pie") ∧
    traceField (PyVal.dict [("x", PyVal.list [PyVal.str "Jan", PyVal.str "Feb"]),
        ("y", PyVal.list [PyVal.int 10, PyVal.int 5]), ("name", PyVal.str "sales"),
        ("type", PyVal.str "bar")]) "type" = some (PyVal.str "bar") := by
  refine ⟨(c4_kind_dispatch exampleDf "month" ["sales"] "pie" Option.none
    (by decide) (by decide)).1 ⟨by decide, by decide, by decide⟩, ?_⟩
  exact (c4_kind_dispatch exampleDf "month" ["sales"] "bar" Option.none
    (by decide) (by decide)).2.1
    [("data", PyVal.list [PyVal.dict [("x", PyVal.list [PyVal.str "Jan", PyVal.str "Feb"]),
        ("y", PyVal.list [PyVal.int 10, PyVal.int 5]), ("name", PyVal.str "sales"),
        ("type", PyVal.str "bar")]]),
     ("layout", PyVal.dict [("margin", PyVal.dict [("l", PyVal.int 40), ("r", PyVal.int 20),
        ("t", PyVal.int 40), ("b", PyVal.int 40)])])]
    rfl _ (List.mem_cons_self _ _)

/-- C9: an explicitly passed traceNames list of the wrong length fails
with `LengthMismatch` (once the columns validate); without traceNames,
the traces carry the y-column names in order. -/
theorem c9_trace_names (df : DataFrame) (x : String) (ycs : List String)
    (ct : String) (layout : Option PyDict) (topts : Option PyDict) :
    (∀ tn, (∀ c ∈ [x] ++ ycs, c ∈ df.columns) → tn.length ≠ ycs.length →
      dataframe_to_plotly df x (StrOrStrList.list ycs) ct layout (some tn) topts =
        Except.error (BuildError.lengthMismatch tn.length ycs.length)) ∧
    (∀ fig, dataframe_to_plotly df x (StrOrStrList.list ycs) ct layout
        Option.none Option.none = Except.ok fig →
      (figTraces fig).map (fun t => traceField t "name") =
        ycs.map (fun c => some (PyVal.str c))) := by
  constructor
  · intro tn hcols hlen
    exact dataframe_to_plotly_mismatch_eq df x _ ct layout tn topts
      (missingCols_isEmpty_of_all_present df x _ (fun c hc => hcols c hc)) hlen
  · intro fig hok
    obtain ⟨tn, traces, htn, htr, rfl⟩ :=
      dataframe_to_plotly_ok_inv df x (StrOrStrList.list ycs) ct layout
        Option.none Option.none fig hok
    rcases htn with ⟨-, rfl⟩ | ⟨hcon, -⟩
    · have hfig : figTraces [("data", PyVal.list (traces.map PyVal.dict)),
          ("layout", PyVal.dict (mergeLayoutDefaults ct traces.length layout))] =
          traces.map PyVal.dict := by
        simp [figTraces, dictGet]
      rw [hfig, List.map_map]
      have hcomp : ((fun t => traceField t "name") ∘ PyVal.dict) =
          (fun d : PyDict => dictGet d "name") := rfl
      rw [hcomp, build_traces_names_map (df.colValues x) df ct _ traces htr]
      exact zip_self_map_snd (fun c => some (PyVal.str c)) tn
    · cases hcon

/-- Witness for C9: a one-name list against two y-columns errors with the
length mismatch; default names equal the y-column names in order. -/
theorem c9_trace_names_witness :
    dataframe_to_plotly exampleDf "month" (StrOrStrList.list ["sales", "revenue"]) "bar"
        Option.none (some ["only"]) Option.none =
      Except.error (BuildError.lengthMismatch 1 2) ∧
    (figTraces [("data", PyVal.list
      [PyVal.dict [("x", PyVal.list [PyVal.str "Jan", PyVal.str "Feb"]),
                   ("y", PyVal.list [PyVal.int 10, PyVal.int 5]),
                   ("name", PyVal.str "sales"), ("type", PyVal.str "bar")],
       PyVal.dict [("x", PyVal.list [PyVal.str "Jan", PyVal.str "Feb"]),
                   ("y", PyVal.list [PyVal.int 20, PyVal.int 8]),
                   ("name", PyVal.str "revenue"), ("type", PyVal.str "bar")]]),
      ("layout", PyVal.dict
        [("margin", PyVal.dict [("l", PyVal.int 40), ("r", PyVal.int 20),
          ("t", PyVal.int 40), ("b", PyVal.int 40)]),
         ("barmode", PyVal.str "group")])]).map (fun t => traceField t "name") =
      [some (PyVal.str "sales"), some (PyVal.str "revenue")] := by
  have h := c9_trace_names exampleDf "month" ["sales", "revenue"] "bar"
    Option.none Option.none
  exact ⟨h.1 ["only"] (by decide) (by decide), h.2 _ rfl⟩

theorem mapM_from_dict_all (ps : List PyVal)
    (h : ∀ p ∈ ps, ∃ pd, p = PyVal.dict pd) :
    ∃ qs, ps.mapM PlotlyPoint.from_dict = some qs ∧ qs.length = ps.length := by
  induction ps with
  | nil => exact ⟨[], rfl, rfl⟩
  | cons p rest ih =>
      obtain ⟨pd, rfl⟩ := h p (List.mem_cons_self p rest)
      obtain ⟨qs, hqs, hlen⟩ := ih (fun q hq => h q (List.mem_cons_of_mem _ hq))
      obtain ⟨pt, hpt⟩ : ∃ pt, PlotlyPoint.from_dict (PyVal.dict pd) = some pt := ⟨_, rfl⟩
      refine ⟨pt :: qs, ?_, by simp [hlen]⟩
      rw [List.mapM_cons, hpt, hqs]
      rfl

theorem dictGet_some_isEmpty_false (a : PyDict) (k : String) (v : PyVal)
    (h : dictGet a k = some v) : a.isEmpty = false := by
  cases a with
  | nil => cases h
  | cons hd tl => rfl

/-- C5 counterexample: parsing a select event can raise: on the raw
payload mapping `{"points": 5}` the comprehension
`[PlotlyPoint.from_dict(p) for p in args["points"]]` iterates an integer
and Python raises `TypeError` (`Option.none` in this embedding), so
"never raises for any raw payload mapping" is false. -/
theorem c5_select_parse_counterexample :
    PlotlySelectEvent.from_event_args (some [("points", PyVal.int 5)]) = Option.none := rfl

/-- C5 (amended): parsing a select event never raises provided the points
field, when present, is a sequence of mappings; `parseEvent("select", {})`
yields a Select event with `points == []` and `isEmpty == true`; for the
point-bearing kinds an absent points field yields an empty point
sequence; and `parsePoint` defaults absent curveIndex and pointIndex to 0
and absent optional fields to absent. -/
theorem c5_event_parsing (a : PyDict) (d : PyDict) (ps : List PyVal) :
    (PlotlySelectEvent.from_event_args (some []) = some ⟨[], PyVal.none, PyVal.none⟩ ∧
      PlotlySelectEvent.is_empty ⟨[], PyVal.none, PyVal.none⟩ = true ∧
      PlotlySelectEvent.point_count ⟨[], PyVal.none, PyVal.none⟩ = 0) ∧
    (dictGet a "points" = Option.none →
      PlotlyClickEvent.from_event_args (some a) = some ⟨[]⟩ ∧
      PlotlyHoverEvent.from_event_args (some a) = some ⟨[]⟩ ∧
      PlotlySelectEvent.from_event_args (some a) =
        some ⟨[], dictGetD a "range" PyVal.none, dictGetD a "lassoPoints" PyVal.none⟩) ∧
    (dictGet a "points" = some (PyVal.list ps) →
      (∀ p ∈ ps, ∃ pd, p = PyVal.dict pd) →
      ∃ e, PlotlySelectEvent.from_event_args (some a) = some e ∧
        e.points.length = ps.length ∧
        (PlotlySelectEvent.is_empty e = true ↔ ps = [])) ∧
    (∃ p, PlotlyPoint.from_dict (PyVal.dict d) = some p ∧
      (dictGet d "curveNumber" = Option.none → p.curve_number = PyVal.int 0) ∧
      (dictGet d "pointNumber" = Option.none → p.point_number = PyVal.int 0) ∧
      (dictGet d "z" = Option.none → p.z = PyVal.none) ∧
      (dictGet d "lat" = Option.none → p.lat = PyVal.none) ∧
      (dictGet d "lon" = Option.none → p.lon = PyVal.none) ∧
      (dictGet d "text" = Option.none → p.text = PyVal.none) ∧
      (dictGet d "customdata" = Option.none → p.customdata = PyVal.none) ∧
      (dictGet d "pointNumbers" = Option.none → p.point_numbers = PyVal.none)) := by
  refine ⟨⟨rfl, rfl, rfl⟩, ?_, ?_, ?_⟩
  · intro h
    refine ⟨?_, ?_, ?_⟩
    · cases a with
      | nil => rfl
      | cons hd tl => simp [PlotlyClickEvent.from_event_args, h]
    · cases a with
      | nil => rfl
      | cons hd tl => simp [PlotlyHoverEvent.from_event_args, h]
    · cases a with
      | nil => rfl
      | cons hd tl => simp [PlotlySelectEvent.from_event_args, h]
  · intro hp hall
    have hfalse : a.isEmpty = false := dictGet_some_isEmpty_false a "points" _ hp
    obtain ⟨qs, hqs, hlen⟩ := mapM_from_dict_all ps hall
    have hqs2 : List.mapM.loop PlotlyPoint.from_dict ps [] = some qs := hqs
    refine ⟨⟨qs, dictGetD a "range" PyVal.none, dictGetD a "lassoPoints" PyVal.none⟩,
      ?_, hlen, ?_⟩
    · simp [PlotlySelectEvent.from_event_args, hfalse, hp, parsePoints, pyIterate, hqs, hqs2]
    · simp [PlotlySelectEvent.is_empty, hlen, List.length_eq_zero]
  · refine ⟨_, rfl, ?_, ?_, ?_, ?_, ?_, ?_, ?_, ?_⟩ <;>
      intro h <;> simp [dictGetD, h]

/-- Witness for C5 at a concrete empty payload and a payload without a
points field. -/
theorem c5_event_parsing_witness :
    PlotlySelectEvent.from_event_args (some []) = some ⟨[], PyVal.none, PyVal.none⟩ ∧
    PlotlyClickEvent.from_event_args (some [("other", PyVal.int 1)]) = some ⟨[]⟩ := by
  have h := c5_event_parsing [("other", PyVal.int 1)] [] []
  exact ⟨h.1.1, (h.2.1 rfl).1⟩

theorem titleSet_get_self (m : PyDict) (t : String) :
    dictGet (titleSet m (some t)) "title" = some (PyVal.str t) :=
  dictGet_dictSet_self m "title" (PyVal.str t)

theorem titleSet_get_ne (m : PyDict) (topt : Option String) (k : String) (hk : k ≠ "title") :
    dictGet (titleSet m topt) k = dictGet m k := by
  cases topt with
  | none => rfl
  | some t => exact dictGet_dictSet_ne m "title" k (PyVal.str t) hk

theorem themeAxisTitleSet_spec (m : PyDict) (axis : String) (topt : Option String)
    (hd : ∀ t, topt = some t → ∃ d, dictGet m axis = some (PyVal.dict d)) :
    ∃ m2, themeAxisTitleSet m axis topt = some m2 ∧
      (∀ k, k ≠ axis → dictGet m2 k = dictGet m k) ∧
      (∀ d0, dictGet m axis = some (PyVal.dict d0) →
        ∃ d2, dictGet m2 axis = some (PyVal.dict d2)) := by
  cases topt with
  | none => exact ⟨m, rfl, fun _ _ => rfl, fun d0 h0 => ⟨d0, h0⟩⟩
  | some t =>
      obtain ⟨d, hdg⟩ := hd t rfl
      refine ⟨dictSet m axis (PyVal.dict (dictSet d "title" (PyVal.str t))), ?_, ?_, ?_⟩
      · simp [themeAxisTitleSet, setSubKey, hdg]
      · intro k hk
        exact dictGet_dictSet_ne m axis k _ hk
      · intro d0 h0
        exact ⟨dictSet d "title" (PyVal.str t), dictGet_dictSet_self m axis _⟩

theorem mergedAxisTitleSet_spec (m : PyDict) (axis : String) (topt : Option String)
    (hd : ∀ t, topt = some t → ∃ d, dictGet m axis = some (PyVal.dict d)) :
    ∃ m2, mergedAxisTitleSet m axis topt = some m2 ∧
      (∀ k, k ≠ axis → dictGet m2 k = dictGet m k) ∧
      (∀ t, topt = some t → subGet m2 axis "title" = some (PyVal.str t)) := by
  cases topt with
  | none => exact ⟨m, rfl, fun _ _ => rfl, fun t ht => by cases ht⟩
  | some t =>
      obtain ⟨d, hdg⟩ := hd t rfl
      have hnone : (dictGet m axis).isNone = false := by rw [hdg]; rfl
      refine ⟨dictSet m axis (PyVal.dict (dictSet d "title" (PyVal.str t))), ?_, ?_, ?_⟩
      · simp [mergedAxisTitleSet, hnone, setSubKey, hdg]
      · intro k hk
        exact dictGet_dictSet_ne m axis k _ hk
      · intro t2 ht2
        injection ht2 with ht3
        subst ht3
        simp [subGet, dictGet_dictSet_self]

theorem subGet_eq_of_get_eq (m1 m2 : PyDict) (k s : String)
    (h : dictGet m2 k = dictGet m1 k) : subGet m2 k s = subGet m1 k s := by
  rw [subGet, subGet, h]

/-- C2: decorate (`apply_theme_to_figure`) forces every explicitly passed
title: `layout.title` equals the passed title regardless of any
pre-existing title, and likewise `layout.xaxis.title` / `layout.yaxis.title`;
the figure's data sequence is returned unchanged. (The figure obeys the
data-model invariant that its layout, and the layout's axis entries, are
mappings.) -/
theorem c2_decorate_titles (figure : PyDict) (theme : PlotlyTheme) (storage : PyDict)
    (title xaxis_title yaxis_title : Option String) (dataVal : PyVal)
    (hdata : dictGet figure "data" = some dataVal)
    (hlay : ∀ v, dictGet figure "layout" = some v → ∃ l, v = PyVal.dict l)
    (hx : ∀ l, dictGet figure "layout" = some (PyVal.dict l) →
      ∀ v, ("xaxis", v) ∈ l → ∃ xd, v = PyVal.dict xd)
    (hy : ∀ l, dictGet figure "layout" = some (PyVal.dict l) →
      ∀ v, ("yaxis", v) ∈ l → ∃ yd, v = PyVal.dict yd) :
    (apply_theme_to_figure figure theme storage title xaxis_title yaxis_title ≠
      Option.none) ∧
    ∀ res, apply_theme_to_figure figure theme storage title xaxis_title yaxis_title =
        some res →
      (∀ t, title = some t → dictGet (figLayout res) "title" = some (PyVal.str t)) ∧
      (∀ t, xaxis_title = some t →
        subGet (figLayout res) "xaxis" "title" = some (PyVal.str t)) ∧
      (∀ t, yaxis_title = some t →
        subGet (figLayout res) "yaxis" "title" = some (PyVal.str t)) ∧
      dictGet res "data" = some dataVal := by
  rcases hgc : theme.get_colors storage with ⟨bg, tc, gc⟩
  -- the theme layout literal built by the function
  have fx0 : dictGet (titleSet [("plot_bgcolor", PyVal.str bg),
      ("paper_bgcolor", PyVal.str bg),
      ("font", PyVal.dict [("color", PyVal.str tc)]),
      ("xaxis", PyVal.dict [("gridcolor", PyVal.str gc), ("linecolor", PyVal.str tc),
        ("zerolinecolor", PyVal.str gc)]),
      ("yaxis", PyVal.dict [("gridcolor", PyVal.str gc), ("linecolor", PyVal.str tc),
        ("zerolinecolor", PyVal.str gc)])] title) "xaxis" =
      some (PyVal.dict [("gridcolor", PyVal.str gc), ("linecolor", PyVal.str tc),
        ("zerolinecolor", PyVal.str gc)]) := by
    rw [titleSet_get_ne _ _ _ (by decide)]
    rfl
  have fy0 : dictGet (titleSet [("plot_bgcolor", PyVal.str bg),
      ("paper_bgcolor", PyVal.str bg),
      ("font", PyVal.dict [("color", PyVal.str tc)]),
      ("xaxis", PyVal.dict [("gridcolor", PyVal.str gc), ("linecolor", PyVal.str tc),
        ("zerolinecolor", PyVal.str gc)]),
      ("yaxis", PyVal.dict [("gridcolor", PyVal.str gc), ("linecolor", PyVal.str tc),
        ("zerolinecolor", PyVal.str gc)])] title) "yaxis" =
      some (PyVal.dict [("gridcolor", PyVal.str gc), ("linecolor", PyVal.str tc),
        ("zerolinecolor", PyVal.str gc)]) := by
    rw [titleSet_get_ne _ _ _ (by decide)]
    rfl
  obtain ⟨TL2, hTL2eq, hTL2ne, hTL2dict⟩ :=
    themeAxisTitleSet_spec (titleSet [("plot_bgcolor", PyVal.str bg),
      ("paper_bgcolor", PyVal.str bg),
      ("font", PyVal.dict [("color", PyVal.str tc)]),
      ("xaxis", PyVal.dict [("gridcolor", PyVal.str gc), ("linecolor", PyVal.str tc),
        ("zerolinecolor", PyVal.str gc)]),
      ("yaxis", PyVal.dict [("gridcolor", PyVal.str gc), ("linecolor", PyVal.str tc),
        ("zerolinecolor", PyVal.str gc)])] title) "xaxis" xaxis_title
      (fun t _ => ⟨_, fx0⟩)
  have fy2 : dictGet TL2 "yaxis" = some (PyVal.dict
      [("gridcolor", PyVal.str gc), ("linecolor", PyVal.str tc),
       ("zerolinecolor", PyVal.str gc)]) := by
    rw [hTL2ne "yaxis" (by decide)]
    exact fy0
  obtain ⟨xd2, fx2⟩ := hTL2dict _ fx0
  obtain ⟨TL3, hTL3eq, hTL3ne, hTL3dict⟩ :=
    themeAxisTitleSet_spec TL2 "yaxis" yaxis_title (fun t _ => ⟨_, fy2⟩)
  have fx3 : dictGet TL3 "xaxis" = some (PyVal.dict xd2) := by
    rw [hTL3ne "xaxis" (by decide)]
    exact fx2
  obtain ⟨yd3, fy3⟩ := hTL3dict _ fy2
  -- existing layout
  obtain ⟨EL, hEL, hELx, hELy⟩ : ∃ EL, existingLayout figure = some EL ∧
      (∀ v, ("xaxis", v) ∈ EL → ∃ xd, v = PyVal.dict xd) ∧
      (∀ v, ("yaxis", v) ∈ EL → ∃ yd, v = PyVal.dict yd) := by
    cases hfig : dictGet figure "layout" with
    | none =>
        refine ⟨[], ?_, ?_, ?_⟩
        · rw [existingLayout, hfig]
        · intro v hv; cases hv
        · intro v hv; cases hv
    | some v =>
        obtain ⟨l, rfl⟩ := hlay v hfig
        refine ⟨l, ?_, hx l hfig, hy l hfig⟩
        rw [existingLayout, hfig]
  -- merged layout and the forced titles
  obtain ⟨mxd, hmx⟩ := deep_merge_dict_at EL TL3 "xaxis" xd2 fx3 hELx
  obtain ⟨myd, hmy⟩ := deep_merge_dict_at EL TL3 "yaxis" yd3 fy3 hELy
  have hmx1 : ∃ d, dictGet (titleSet (deep_merge TL3 EL) title) "xaxis" =
      some (PyVal.dict d) := ⟨mxd, by rw [titleSet_get_ne _ _ _ (by decide)]; exact hmx⟩
  have hmy1 : ∃ d, dictGet (titleSet (deep_merge TL3 EL) title) "yaxis" =
      some (PyVal.dict d) := ⟨myd, by rw [titleSet_get_ne _ _ _ (by decide)]; exact hmy⟩
  obtain ⟨M2, hM2eq, hM2ne, hM2title⟩ :=
    mergedAxisTitleSet_spec (titleSet (deep_merge TL3 EL) title) "xaxis" xaxis_title
      (fun t _ => hmx1)
  have hmy2 : ∃ d, dictGet M2 "yaxis" = some (PyVal.dict d) := by
    obtain ⟨d, hd2⟩ := hmy1
    exact ⟨d, by rw [hM2ne "yaxis" (by decide)]; exact hd2⟩
  obtain ⟨M3, hM3eq, hM3ne, hM3title⟩ :=
    mergedAxisTitleSet_spec M2 "yaxis" yaxis_title (fun t _ => hmy2)
  -- the function's value
  have happly : apply_theme_to_figure figure theme storage title xaxis_title yaxis_title =
      some [("data", dictGetD figure "data" (PyVal.list [])),
            ("layout", PyVal.dict M3)] := by
    simp only [apply_theme_to_figure, hgc]
    rw [hTL2eq]
    simp only [Option.bind_eq_bind, Option.some_bind]
    rw [hTL3eq]
    simp only [Option.bind_eq_bind, Option.some_bind]
    rw [hEL]
    simp only [Option.bind_eq_bind, Option.some_bind]
    rw [hM2eq]
    simp only [Option.bind_eq_bind, Option.some_bind]
    rw [hM3eq]
    simp only [Option.bind_eq_bind, Option.some_bind]
    rfl
  have hflres : figLayout [("data", dictGetD figure "data" (PyVal.list [])),
      ("layout", PyVal.dict M3)] = M3 := rfl
  constructor
  · rw [happly]
    simp
  · intro res hres
    rw [happly] at hres
    injection hres with hres2
    subst hres2
    refine ⟨?_, ?_, ?_, ?_⟩
    · intro t ht
      subst ht
      rw [hflres, hM3ne "title" (by decide), hM2ne "title" (by decide)]
      exact titleSet_get_self (deep_merge TL3 EL) t
    · intro t ht
      rw [hflres, subGet_eq_of_get_eq M2 M3 "xaxis" "title" (hM3ne "xaxis" (by decide))]
      exact hM2title t ht
    · intro t ht
      rw [hflres]
      exact hM3title t ht
    · rw [show dictGet [("data", dictGetD figure "data" (PyVal.list [])),
        ("layout", PyVal.dict M3)] "data" = some (dictGetD figure "data" (PyVal.list []))
        from rfl]
      rw [dictGetD, hdata]
      rfl

/-- Witness for C2: a figure with a pre-existing title, x-axis title and
data; all three passed titles win. -/
theorem c2_decorate_titles_witness :
    apply_theme_to_figure
      [("data", PyVal.list [PyVal.dict [("x", PyVal.list [PyVal.int 1])]]),
       ("layout", PyVal.dict [("title", PyVal.str "old"),
         ("xaxis", PyVal.dict [("title", PyVal.str "oldX")])])]
      exampleTheme [] (some "T") (some "X") (some "Y") ≠ Option.none := by
  exact (c2_decorate_titles
    [("data", PyVal.list [PyVal.dict [("x", PyVal.list [PyVal.int 1])]]),
     ("layout", PyVal.dict [("title", PyVal.str "old"),
       ("xaxis", PyVal.dict [("title", PyVal.str "oldX")])])]
    exampleTheme [] (some "T") (some "X") (some "Y")
    (PyVal.list [PyVal.dict [("x", PyVal.list [PyVal.int 1])]]) rfl
    (fun v hv => ⟨[("title", PyVal.str "old"),
      ("xaxis", PyVal.dict [("title", PyVal.str "oldX")])], by injection hv with h2; exact h2.symm⟩)
    (fun l hl v hv => by
      injection hl with h2
      injection h2 with h3
      rw [← h3] at hv
      simp only [List.mem_cons, List.not_mem_nil, or_false] at hv
      rcases hv with hv | hv
      · exact absurd (congrArg Prod.fst hv) (by simp)
      · exact ⟨[("title", PyVal.str "oldX")], congrArg Prod.snd hv⟩)
    (fun l hl v hv => by
      injection hl with h2
      injection h2 with h3
      rw [← h3] at hv
      simp only [List.mem_cons, List.not_mem_nil, or_false] at hv
      rcases hv with hv | hv
      · exact absurd (congrArg Prod.fst hv) (by simp)
      · exact absurd (congrArg Prod.fst hv) (by simp))).1

end NiceguiScaffold
